import Mathlib

/-!
# Verification of the agricultural advisory pipeline (orchestration core)

Shallow embedding, in Lean 4, of the coordination code of the repository:
the orchestrator agent's dispatch and synthesis (`LLM_Server/orchestrator_agent.py`),
the weather specialist's date validation (`LLM_Server/weather_agent.py`),
the audio file watcher (`src/audio_fetcher.py`), the recording processor's
translation, chunking and persistence logic (`src/recording_processor.py`),
and the transcript monitor (`transcript_monitor.py`).

External effects (LLM calls, translation and TTS providers, the clock and
the file system) are modelled as explicit oracle parameters or observation
sequences, so that every embedded operation is a total computable function
of its inputs.  Machine integers do not occur in the Python source (all
arithmetic is unbounded), so `Nat`/`Int` are used directly.
-/

namespace AgriPipeline

/-! ## Weather specialist: date-parameter validation

Embeds `WeatherAgent._validate_date_parameters` and
`WeatherAgent._get_default_parameters` from `LLM_Server/weather_agent.py`.
Dates are modelled as integer day numbers; `datetime.now().date()` is the
explicit parameter `today`; `datetime.strptime` failure (the `ValueError`
branch) is modelled by passing `none` for the parsed dates.
-/

namespace WeatherAgent

/-- Embeds `WeatherAgent._validate_date_parameters` (weather_agent.py:254-285).
The input `parsed` is `some (start, end)` when both `strptime` calls succeed
and `none` when a `ValueError` is raised.  The three fix-ups are applied in
source order: past start clamped to today, end clamped to `today + 16`,
then `end ≤ start` replaced by `start + 7`. -/
def validateDateParameters (today : Int) (parsed : Option (Int × Int)) :
    Int × Int :=
  match parsed with
  | none => (today, today + 7)
  | some (s0, e0) =>
    let s := if s0 < today then today else s0
    let e1 := if e0 > today + 16 then today + 16 else e0
    let e2 := if e1 ≤ s then s + 7 else e1
    (s, e2)

/-- Embeds `WeatherAgent._get_default_parameters` (weather_agent.py:287-301):
location is the profile pincode when present, else the default `"110001"`,
and the date range is `today .. today + 7`. -/
def getDefaultParameters (profilePincode : Option String) (today : Int) :
    String × Int × Int :=
  (match profilePincode with
   | some p => p
   | none => "110001",
   today, today + 7)

end WeatherAgent

/-! ## Orchestrator: dispatch and pipelines

Embeds `OrchestratorAgent` from `LLM_Server/orchestrator_agent.py`.  Each
specialist's `process_query` is a blocking Python method call; a call is
modelled by the oracle `oracle : String → AgentResp` (the response the named
specialist returns) together with two adjacent trace events `callStart name`
and `callEnd name` — the call begins and ends before the next statement
runs, which is exactly the source's sequential `for`/`elif` chain.  The LLM
synthesis calls are modelled by string parameters (the text the LLM, or its
exception fallback, produces); in the source both the happy path and the
fallback produce a response, so synthesis is total here.
-/

namespace Orchestrator

/-- A point in the observable behaviour of one orchestration: a specialist
call starting, a specialist call returning, or synthesis beginning. -/
inductive Event where
  | callStart (agent : String)
  | callEnd (agent : String)
  | synthStart
deriving DecidableEq, Repr

/-- One specialist's returned response dict, reduced to the parts the
orchestrator inspects: `response.get("status")` and an opaque rest. -/
structure AgentResp where
  status : Option String
  body : String
deriving DecidableEq, Repr

/-- The four agent names recognised by the `if`/`elif` chain of
`_execute_specific_pipeline` (orchestrator_agent.py:486-509); any other
name in `required_agents` is silently skipped. -/
def knownAgent (name : String) : Bool :=
  name == "weather" || name == "soil" || name == "pest" || name == "scheme"

/-- Python dict assignment `agent_responses[name] = response`: update in
place when the key is present, else append (insertion order preserved). -/
def dictInsert (k : String) (v : AgentResp) :
    List (String × AgentResp) → List (String × AgentResp)
  | [] => [(k, v)]
  | (k', v') :: rest =>
    if k' = k then (k, v) :: rest else (k', v') :: dictInsert k v rest

/-- The mutable loop state of `_execute_specific_pipeline`:
`agent_responses`, `agents_used`, and the trace of events so far. -/
structure DispatchState where
  agentResponses : List (String × AgentResp)
  agentsUsed : List String
  events : List Event
deriving Repr

/-- Embeds the dispatch loop of `_execute_specific_pipeline`
(orchestrator_agent.py:486-509): iterate over `required_agents`; for each
recognised name call that specialist (a blocking call: `callStart` then
`callEnd` with nothing in between), store its response and append the name
to `agents_used`. -/
def dispatchLoop (oracle : String → AgentResp) :
    DispatchState → List String → DispatchState
  | st, [] => st
  | st, name :: rest =>
    if knownAgent name then
      dispatchLoop oracle
        { agentResponses := dictInsert name (oracle name) st.agentResponses,
          agentsUsed := st.agentsUsed ++ [name],
          events := st.events ++ [Event.callStart name, Event.callEnd name] }
        rest
    else
      dispatchLoop oracle st rest

/-- The combined response of the specific pipeline, reduced to the fields
the claims inspect. -/
structure PipelineResult where
  status : String
  pipelineType : String
  farmerResponse : String
  agentsUsed : List String
  agentResponses : List (String × AgentResp)
deriving Repr

/-- Embeds `_execute_specific_pipeline` (orchestrator_agent.py:465-534) on
the non-raising paths: dispatch to every listed recognised specialist in
list order, then synthesise (`_synthesize_specific_responses`, whose LLM
call and whose exception fallback both yield a `farmer_response`), and
return the combined response with `status := "success"` unconditionally —
the source sets `"status": "success"` after synthesis no matter what the
individual agents' statuses were. -/
def executeSpecificPipeline (oracle : String → AgentResp)
    (synthesisText : String) (requiredAgents : List String) :
    PipelineResult × List Event :=
  let st := dispatchLoop oracle ⟨[], [], []⟩ requiredAgents
  ({ status := "success", pipelineType := "specific",
     farmerResponse := synthesisText,
     agentsUsed := st.agentsUsed,
     agentResponses := st.agentResponses },
   st.events ++ [Event.synthStart])

/-- Embeds `_gather_comprehensive_intelligence`
(orchestrator_agent.py:597-650) on the non-raising path: four blocking
specialist calls, one after another, in the fixed order weather, soil,
pest, scheme. -/
def gatherComprehensiveIntelligence (oracle : String → AgentResp) :
    List (String × AgentResp) × List Event :=
  ([("weather", oracle "weather"), ("soil", oracle "soil"),
    ("pest", oracle "pest"), ("scheme", oracle "scheme")],
   [Event.callStart "weather", Event.callEnd "weather",
    Event.callStart "soil", Event.callEnd "soil",
    Event.callStart "pest", Event.callEnd "pest",
    Event.callStart "scheme", Event.callEnd "scheme"])

/-- The comprehensive (generic) pipeline response, reduced to the fields the
claims inspect. -/
structure GenericResult where
  status : String
  pipelineType : String
  comprehensiveStrategy : String
  actionableRoadmap : String
  hyperlocalGuidance : String
  agentIntelligence : List (String × AgentResp)
  agentsUsed : List String
deriving Repr

/-- Embeds `_execute_generic_pipeline` (orchestrator_agent.py:536-595) on
the non-raising paths: gather intelligence from all four specialists, build
the three LLM artifacts (modelled as string parameters, as both the LLM
path and each fallback produce one), and return `status := "success"`
unconditionally. -/
def executeGenericPipeline (oracle : String → AgentResp)
    (strategyText roadmapText hyperlocalText : String) :
    GenericResult × List Event :=
  let gathered := gatherComprehensiveIntelligence oracle
  ({ status := "success", pipelineType := "generic",
     comprehensiveStrategy := strategyText,
     actionableRoadmap := roadmapText,
     hyperlocalGuidance := hyperlocalText,
     agentIntelligence := gathered.1,
     agentsUsed := ["weather", "soil", "pest", "scheme"] },
   gathered.2)

/-- Embeds steps 4-6 of `process_farmer_request`
(orchestrator_agent.py:110-132): execute the classified pipeline and
convert the combined response to plain English (`_convert_json_to_english`,
modelled by the conversion oracles — both its LLM path and its fallbacks
return a string).  The method returns the English text; it has no
`AllAgentsFailed` (or any other) error return on these paths. -/
def processFarmerRequest (oracle : String → AgentResp)
    (synthesisText strategyText roadmapText hyperlocalText : String)
    (englishOfSpecific : PipelineResult → String)
    (englishOfGeneric : GenericResult → String)
    (pipelineType : String) (requiredAgents : List String) : String :=
  if pipelineType = "specific" then
    englishOfSpecific
      (executeSpecificPipeline oracle synthesisText requiredAgents).1
  else
    englishOfGeneric
      (executeGenericPipeline oracle strategyText roadmapText
        hyperlocalText).1

/-- The events of the dispatch loop as a standalone function of the agent
list: one adjacent `callStart`/`callEnd` pair per recognised listed name,
in list order. -/
def dispatchEvents : List String → List Event
  | [] => []
  | name :: rest =>
    (if knownAgent name then [Event.callStart name, Event.callEnd name]
     else []) ++ dispatchEvents rest

/-- Checks that a trace is a concatenation of adjacent
`callStart a`/`callEnd a` pairs: every specialist call returns before the
next one starts (strictly sequential, no two calls ever in flight). -/
def seqEvents : List Event → Bool
  | [] => true
  | Event.callStart a :: Event.callEnd b :: rest => a == b && seqEvents rest
  | _ => false

/-- Position of the start of agent `a`'s call in a trace. -/
def startIdx (tr : List Event) (a : String) : Nat :=
  tr.indexOf (Event.callStart a)

/-- Position of the return of agent `a`'s call in a trace. -/
def endIdx (tr : List Event) (a : String) : Nat :=
  tr.indexOf (Event.callEnd a)

/-- Two specialists were invoked concurrently in a trace when their
invocation intervals overlap: each one's call starts before the other's
call has returned. -/
def concurrentlyInvoked (tr : List Event) (a b : String) : Prop :=
  startIdx tr a < endIdx tr b ∧ startIdx tr b < endIdx tr a

/-- A specialist oracle on which every agent reports a hard failure:
no specialist returns Ok. -/
def oracleAllFailed : String → AgentResp :=
  fun name => { status := some "error", body := name }

end Orchestrator

/-! ## Audio fetcher: completeness gate and scan loop

Embeds `AudioFetcher` from `src/audio_fetcher.py`.  The file system is
modelled by observation sequences: for each path, `obs t` is what the
watcher would see at the `t`-th one-second poll (whether the sidecar
completion marker `<path>.complete` exists, and the `stat().st_size`
result, `none` modelling `OSError`/`FileNotFoundError`).  The initial
2-second wait for files under 1 KiB shifts wall-clock time only and is
absorbed into the observation indexing; the loop consumes one observation
per iteration, exactly one per second of `time.sleep(1)`.
-/

namespace AudioFetcher

/-- One poll's view of a file: whether the path exists, whether its
completion marker exists, and the observed size (`none` = `stat` raised). -/
structure Obs where
  present : Bool
  marker : Bool
  size : Option Nat
deriving DecidableEq, Repr

/-- Embeds the polling `while` loop of `AudioFetcher.is_file_ready`
(audio_fetcher.py:149-178).  `fuel` is the number of remaining iterations
(`max_wait - total_wait`); `totalWait` is the index of the previous poll;
`lastSize` and `stableCount` are the loop variables of the source.  Each
iteration re-checks the completion marker, then compares the freshly
observed size with `lastSize`: equal sizes bump the stability counter
(ready once it reaches `stabilityTime`), a changed size resets it. -/
def isFileReadyLoop (o : Nat → Obs) (stabilityTime : Nat) :
    (lastSize stableCount totalWait fuel : Nat) → Bool
  | _, _, _, 0 => false
  | lastSize, stableCount, totalWait, fuel + 1 =>
    let t := totalWait + 1
    if (o t).marker then true
    else
      match (o t).size with
      | none => false
      | some current =>
        if current = lastSize then
          if stabilityTime ≤ stableCount + 1 then true
          else isFileReadyLoop o stabilityTime lastSize (stableCount + 1) t
            fuel
        else isFileReadyLoop o stabilityTime current 0 t fuel

/-- Embeds `AudioFetcher.is_file_ready` (audio_fetcher.py:113-182), with
the source's default arguments `stability_time=5, max_wait=120`: a missing
file is not ready; a present completion marker means ready immediately;
otherwise the size-stability poll loop runs for at most `maxWait`
one-second iterations. -/
def isFileReady (o : Nat → Obs) (stabilityTime : Nat := 5)
    (maxWait : Nat := 120) : Bool :=
  if !(o 0).present then false
  else if (o 0).marker then true
  else
    match (o 0).size with
    | none => false
    | some initial => isFileReadyLoop o stabilityTime initial 0 0 maxWait

/-- Python set semantics of `self.processed_files.add(x)`. -/
def setAdd (x : String) (s : List String) : List String :=
  if x ∈ s then s else s ++ [x]

/-- The audio suffixes of `AudioFetcher.audio_formats`
(audio_fetcher.py:41). -/
def audioFormats : List String :=
  [".wav", ".mp3", ".gsm", ".ulaw", ".alaw", ".sln", ".g722", ".au"]

/-- `pathlib.Path.suffix`: the extension from the last dot on, empty when
there is no dot or the dot is the first or last character of the name
(CPython: `i = name.rfind('.'); name[i:] if 0 < i < len(name) - 1 else
''`). -/
def fileSuffix (p : String) : String :=
  let cs := p.toList
  let afterRev := cs.reverse.takeWhile (fun c => c ≠ '.')
  if afterRev.length = cs.length then ""
  else if afterRev.length = 0 then ""
  else if afterRev.length + 1 = cs.length then ""
  else String.mk ('.' :: afterRev.reverse)

/-- Embeds `AudioFetcher.is_audio_file` (audio_fetcher.py:109-111):
`filepath.suffix.lower() in self.audio_formats`. -/
def isAudioFile (p : String) : Bool :=
  audioFormats.contains
    (String.mk ((fileSuffix p).toList.map Char.toLower))

/-- Embeds `AudioFetcher.find_new_audio_files` (audio_fetcher.py:184-202):
the directory entries that are audio files and not in the processed set. -/
def findNewAudioFiles (monitorDir : List String)
    (processed : List String) : List String :=
  monitorDir.filter (fun p => isAudioFile p && !(processed.contains p))

/-- Embeds `AudioFetcher.process_audio_file` (audio_fetcher.py:204-251).
`obs` gives the file's poll observations, `procAvailable` models
`self.recording_processor` being non-`None`, and `procSuccess p` models
`process_recording(p).get("success", False)`.  Returns the method's
boolean result, the updated processed set (the id is added only on
success), and the trace of `process_recording` invocations this call
made. -/
def processAudioFile (obs : String → Nat → Obs) (procAvailable : Bool)
    (procSuccess : String → Bool) (processed : List String)
    (path : String) : Bool × List String × List String :=
  if !(isFileReady (obs path)) then (false, processed, [])
  else if !procAvailable then (false, processed, [])
  else if procSuccess path then (true, setAdd path processed, [path])
  else (false, processed, [path])

/-- The loop body of `AudioFetcher.fetch_files_once`
(audio_fetcher.py:266-268): process each newly found file in order,
threading the processed set and accumulating the `process_recording`
invocation trace. -/
def processFilesLoop (obs : String → Nat → Obs) (procAvailable : Bool)
    (procSuccess : String → Bool) :
    List String → List String → List String × List String
  | processed, [] => (processed, [])
  | processed, f :: rest =>
    let step := processAudioFile obs procAvailable procSuccess processed f
    let next := processFilesLoop obs procAvailable procSuccess step.2.1 rest
    (next.1, step.2.2 ++ next.2)

/-- The fetcher's shared state: the in-memory processed set and the
persisted `processed_files.json` contents. -/
structure FetcherState where
  processed : List String
  persisted : List String
deriving DecidableEq, Repr

/-- Embeds `AudioFetcher.fetch_files_once` (audio_fetcher.py:253-274):
scan for new audio files, process each, then persist the processed set
(`save_processed_files`, audio_fetcher.py:96-107, writes the whole
in-memory set). -/
def fetchFilesOnce (monitorDir : List String) (obs : String → Nat → Obs)
    (procAvailable : Bool) (procSuccess : String → Bool)
    (st : FetcherState) : FetcherState × List String :=
  let newFiles := findNewAudioFiles monitorDir st.processed
  let run := processFilesLoop obs procAvailable procSuccess st.processed
    newFiles
  ({ processed := run.1, persisted := run.1 }, run.2)

/-- `n` iterations of the `run_continuous` loop
(audio_fetcher.py:276-295): repeated scans within one process lifetime,
with the accumulated `process_recording` invocation trace. -/
def runScans (monitorDir : List String) (obs : String → Nat → Obs)
    (procAvailable : Bool) (procSuccess : String → Bool) :
    FetcherState → Nat → FetcherState × List String
  | st, 0 => (st, [])
  | st, n + 1 =>
    let scan := fetchFilesOnce monitorDir obs procAvailable procSuccess st
    let rest := runScans monitorDir obs procAvailable procSuccess scan.1 n
    (rest.1, scan.2 ++ rest.2)

/-- Startup: `load_processed_files` (audio_fetcher.py:85-94) initialises
the in-memory set from the on-disk log. -/
def loadFetcher (log : List String) : FetcherState :=
  { processed := log, persisted := log }

/-- An observation family on which every file has its completion marker
present from the start (and hence is immediately ready). -/
def obsAlwaysMarked : String → Nat → Obs :=
  fun _ _ => { present := true, marker := true, size := some 2048 }

end AudioFetcher

/-! ## Recording processor: text utilities and the TTS chunker

Embeds the text-processing code of `src/recording_processor.py`.  Python
strings are modelled as `List Char` (Python's `str` is a sequence of
Unicode code points, exactly `Char` here); `len(s.encode('utf-8'))` is
`utf8Len`, `str.strip()` is `pyStrip`, `s.split('. ')` is `splitDotSpace`,
`s.split(' ')` is `splitSpace`, and `s.split()` (no argument — whitespace
runs, no empty parts) is `splitWhite`.
-/

namespace RecordingProcessor

/-- `len(s.encode('utf-8'))`: the UTF-8 byte length of a string. -/
def utf8Len (l : List Char) : Nat :=
  l.foldr (fun c acc => c.utf8Size + acc) 0

/-- `str.strip()`: drop whitespace from both ends.  (Python strips Unicode
whitespace; the texts handled here use ASCII whitespace, covered by
`Char.isWhitespace`.) -/
def pyStrip (l : List Char) : List Char :=
  ((l.dropWhile Char.isWhitespace).reverse.dropWhile
    Char.isWhitespace).reverse

/-- `s.split('. ')`: split on every occurrence of the two-character
separator, left to right, keeping empty parts. -/
def splitDotSpace : List Char → List (List Char)
  | [] => [[]]
  | '.' :: ' ' :: rest => [] :: splitDotSpace rest
  | c :: rest =>
    match splitDotSpace rest with
    | [] => [[c]]
    | h :: t => (c :: h) :: t

/-- `s.split(' ')`: split on every single space, keeping empty parts. -/
def splitSpace : List Char → List (List Char)
  | [] => [[]]
  | ' ' :: rest => [] :: splitSpace rest
  | c :: rest =>
    match splitSpace rest with
    | [] => [[c]]
    | h :: t => (c :: h) :: t

/-- `s.split()`: split on whitespace runs, discarding empty parts. -/
def splitWhite (l : List Char) : List (List Char) :=
  match h : l.dropWhile Char.isWhitespace with
  | [] => []
  | c :: rest =>
    (c :: rest.takeWhile (fun d => !(Char.isWhitespace d))) ::
      splitWhite (rest.dropWhile (fun d => !(Char.isWhitespace d)))
termination_by l.length
decreasing_by
  have h2 : (l.dropWhile Char.isWhitespace).length ≤ l.length :=
    (List.dropWhile_suffix Char.isWhitespace).sublist.length_le
  rw [h] at h2
  have h1 : (rest.dropWhile
      (fun d => !(Char.isWhitespace d))).length ≤ rest.length :=
    (List.dropWhile_suffix (fun d => !(Char.isWhitespace d))).sublist.length_le
  simp only [List.length_cons] at h2
  omega

/-- The character-level fallback loop of
`RecordingProcessorGoogle._chunk_text_for_tts`
(recording_processor.py:1280-1291): accumulate characters until the next
one would push the chunk over `maxBytes`, flushing the accumulated chunk
each time.  Returns the chunk list and the final `char_chunk`. -/
def charLoop (maxBytes : Nat) :
    List (List Char) → List Char → List Char →
      List (List Char) × List Char
  | chunks, charChunk, [] => (chunks, charChunk)
  | chunks, charChunk, c :: cs =>
    let test := charChunk ++ [c]
    if utf8Len test > maxBytes then
      charLoop maxBytes
        (if charChunk.isEmpty then chunks else chunks ++ [charChunk])
        [c] cs
    else charLoop maxBytes chunks test cs

/-- The word-level loop of `_chunk_text_for_tts`
(recording_processor.py:1270-1293): accumulate space-joined words; a word
that does not fit flushes the accumulated chunk, and a single over-long
word falls through to the character loop.  Returns the chunk list and the
final `word_chunk`. -/
def wordLoop (maxBytes : Nat) :
    List (List Char) → List Char → List (List Char) →
      List (List Char) × List Char
  | chunks, wordChunk, [] => (chunks, wordChunk)
  | chunks, wordChunk, w :: ws =>
    let test := if wordChunk.isEmpty then w else wordChunk ++ [' '] ++ w
    if utf8Len test > maxBytes then
      if wordChunk.isEmpty then
        let ran := charLoop maxBytes chunks [] w
        wordLoop maxBytes
          (if ran.2.isEmpty then ran.1 else ran.1 ++ [ran.2]) [] ws
      else wordLoop maxBytes (chunks ++ [pyStrip wordChunk]) w ws
    else wordLoop maxBytes chunks test ws

/-- The sentence-level loop of `_chunk_text_for_tts`
(recording_processor.py:1258-1299).  `lastSentence` is `sentences[-1]`
(the source compares each sentence by value against it when deciding
whether to restore the `". "` separator).  When adding a sentence would
exceed the budget and the current chunk is non-empty, the source flushes
the current chunk and makes the whole `test_sentence` the new current
chunk *without checking its size* — this is where over-budget chunks can
arise.  Returns the chunk list and the final `current_chunk`. -/
def sentenceLoop (maxBytes : Nat) (lastSentence : List Char) :
    List (List Char) → List Char → List (List Char) →
      List (List Char) × List Char
  | chunks, current, [] => (chunks, current)
  | chunks, current, s :: ss =>
    let testSentence :=
      if s ≠ lastSentence then s ++ ['.', ' '] else s
    let testChunk := current ++ testSentence
    if utf8Len testChunk > maxBytes then
      if current.isEmpty then
        let ran := wordLoop maxBytes chunks [] (splitSpace s)
        let newCurrent :=
          if ran.2.isEmpty then []
          else ran.2 ++ (if s ≠ lastSentence then ['.', ' '] else [])
        sentenceLoop maxBytes lastSentence ran.1 newCurrent ss
      else
        sentenceLoop maxBytes lastSentence (chunks ++ [pyStrip current])
          testSentence ss
    else sentenceLoop maxBytes lastSentence chunks testChunk ss

/-- Embeds `RecordingProcessorGoogle._chunk_text_for_tts`
(recording_processor.py:1246-1304) with the source's default
`max_bytes=4500`: a text within budget is one chunk; otherwise split on
`'. '` into sentences and run the sentence loop, flushing the final
current chunk. -/
def chunkTextForTTS (text : List Char) (maxBytes : Nat := 4500) :
    List (List Char) :=
  if utf8Len text ≤ maxBytes then [text]
  else
    let sentences := splitDotSpace text
    let ran := sentenceLoop maxBytes (sentences.getLastD []) [] []
      sentences
    if ran.2.isEmpty then ran.1 else ran.1 ++ [pyStrip ran.2]

/-- A text on which `_chunk_text_for_tts` emits an over-budget chunk: a
short first sentence followed by a 4600-byte sentence. -/
def c4FailText : List Char := "H. ".toList ++ List.replicate 4600 'y'

/-- Proof helper: the effect of the catch-all case of `splitDotSpace` on
the result of the recursive call. -/
def prepend1 (c : Char) : List (List Char) → List (List Char)
  | [] => [[c]]
  | h :: t => (c :: h) :: t

/-- The transcription dict returned by `transcribe_audio`, reduced to the
fields `process_recording` inspects. -/
structure TranscriptionResult where
  transcript : String
  language : String
  error : Option String
deriving DecidableEq, Repr

/-- The translation dict (the value of the transcript artifact's
`translation` key). -/
structure TranslationRecord where
  translatedText : String
  sourceLanguage : String
  targetLanguage : String
  success : Bool
deriving DecidableEq, Repr

/-- The persisted transcript artifact
(`<id>_transcript.json`, recording_processor.py:1685-1698). -/
structure TranscriptArtifact where
  filePath : String
  transcription : TranscriptionResult
  translation : TranslationRecord
  success : Bool
deriving DecidableEq, Repr

/-- The summary of `process_recording`'s returned dict: its top-level
`success` and `error` entries.  (On the success path the returned dict is
the artifact itself; the artifact list below carries it.) -/
structure RecReturn where
  success : Bool
  error : Option String
deriving DecidableEq, Repr

/-- Embeds `RecordingProcessorGoogle.process_recording`
(recording_processor.py:1637-1713) on the non-raising paths.  `ready`
models the inner `is_file_ready` gate; `conversionOk` models
`convert_audio_to_wav` returning instead of raising (a raise lands in the
outer `except`, which returns `success=False` and writes nothing); `tr` is
`transcribe_audio`'s result; `translateOracle` is `translate_text` (total:
it catches its own exceptions).  Returns the method's result summary and
the list of transcript artifacts written to disk — note the source writes
the artifact only on the full success path, with top-level
`"success": True` hardcoded, and returns early (writing nothing) when the
transcript is empty. -/
def processRecording (ready conversionOk : Bool)
    (tr : TranscriptionResult) (translationEnabled : Bool)
    (targetLanguage : String)
    (translateOracle : String → String → String → TranslationRecord)
    (filePath : String) : RecReturn × List TranscriptArtifact :=
  if !ready then
    ({ success := false, error := some "File not ready for processing" },
     [])
  else if !conversionOk then
    ({ success := false, error := some "conversion raised" }, [])
  else if tr.transcript = "" then
    ({ success := false, error := some "No transcript generated" }, [])
  else
    let translation :=
      if translationEnabled && tr.language != targetLanguage then
        translateOracle tr.transcript tr.language targetLanguage
      else
        { translatedText := tr.transcript, sourceLanguage := tr.language,
          targetLanguage := targetLanguage, success := true }
    ({ success := true, error := none },
     [{ filePath := filePath, transcription := tr,
        translation := translation, success := true }])

/-- A translation oracle on which every provider chain fails: the original
text comes back with `success := false` (the `_get_offline_translation`
no-coverage shape, recording_processor.py:1118-1126). -/
def translateAlwaysFails :
    String → String → String → TranslationRecord :=
  fun text src tgt =>
    { translatedText := text, sourceLanguage := src,
      targetLanguage := tgt, success := false }

/-! ### `translate_text` and its helpers -/

/-- One provider call's returned dict
(`_translate_with_*`, recording_processor.py:881-1060): the translated
chunk, the `service` entry if present, and `success`. -/
structure SvcResult where
  translatedText : List Char
  service : Option String
  success : Bool
deriving DecidableEq, Repr

/-- The sentence-ending scan of `_split_text_into_chunks`
(recording_processor.py:806-812): does the text at this position start
with one of `'. '`, `'! '`, `'? '`, `'। '`, `'॥ '`, `'|'`?  Returns the
matched ending's length. -/
def findEnding : List Char → Option Nat
  | '.' :: ' ' :: _ => some 2
  | '!' :: ' ' :: _ => some 2
  | '?' :: ' ' :: _ => some 2
  | '।' :: ' ' :: _ => some 2
  | '॥' :: ' ' :: _ => some 2
  | '|' :: _ => some 1
  | _ => none

/-- The sentence-boundary `while` loop of `_split_text_into_chunks`
(recording_processor.py:799-813): accumulate characters into
`current_sentence`; on an ending, emit the sentence (ending character
included) and skip the rest of the ending.  Returns the sentences and the
leftover `current_sentence`. -/
def sentenceScan : List Char → List Char → List (List Char) × List Char
  | current, [] => ([], current)
  | current, c :: rest =>
    match findEnding (c :: rest) with
    | some n =>
      let scanned := sentenceScan [] (rest.drop (n - 1))
      ((current ++ [c]) :: scanned.1, scanned.2)
    | none => sentenceScan (current ++ [c]) rest
termination_by _ rest => rest.length
decreasing_by
  · have := List.length_drop (n - 1) rest
    simp only [List.length_cons]
    omega
  · simp only [List.length_cons]
    omega

/-- `s.split('\n')` (recording_processor.py:822). -/
def splitNewline : List Char → List (List Char)
  | [] => [[]]
  | '\n' :: rest => [] :: splitNewline rest
  | c :: rest =>
    match splitNewline rest with
    | [] => [[c]]
    | h :: t => (c :: h) :: t

/-- The word-level "conservative chunking" fallback of
`_split_text_into_chunks` (recording_processor.py:824-836), used when no
sentence boundary and no newline was found; `halfMax` is
`max_size // 2`. -/
def wordsFallbackLoop (halfMax : Nat) :
    List (List Char) → List Char → List (List Char) → List (List Char)
  | sentences, current, [] =>
    if current.isEmpty then sentences
    else sentences ++ [pyStrip current]
  | sentences, current, w :: ws =>
    if (current ++ w ++ [' ']).length ≤ halfMax then
      wordsFallbackLoop halfMax sentences (current ++ w ++ [' ']) ws
    else
      wordsFallbackLoop halfMax
        (if current.isEmpty then sentences
         else sentences ++ [pyStrip current]) (w ++ [' ']) ws

/-- The inner word loop of the sentence-combining stage
(recording_processor.py:855-865), for a single sentence longer than
`max_size`. -/
def combineInnerWords (maxSize : Nat) :
    List (List Char) → List Char → List (List Char) →
      List (List Char) × List Char
  | chunks, temp, [] => (chunks, temp)
  | chunks, temp, w :: ws =>
    if (temp ++ w ++ [' ']).length ≤ maxSize then
      combineInnerWords maxSize chunks (temp ++ w ++ [' ']) ws
    else
      combineInnerWords maxSize
        (if temp.isEmpty then chunks else chunks ++ [pyStrip temp])
        (w ++ [' ']) ws

/-- The sentence-combining loop of `_split_text_into_chunks`
(recording_processor.py:839-867). -/
def combineLoop (maxSize : Nat) :
    List (List Char) → List Char → List (List Char) →
      List (List Char) × List Char
  | chunks, current, [] => (chunks, current)
  | chunks, current, s0 :: ss =>
    let s := pyStrip s0
    if s.isEmpty then combineLoop maxSize chunks current ss
    else if (current ++ s ++ [' ']).length ≤ maxSize then
      combineLoop maxSize chunks (current ++ s ++ [' ']) ss
    else
      let chunks1 :=
        if current.isEmpty then chunks else chunks ++ [pyStrip current]
      if s.length > maxSize then
        let ran := combineInnerWords maxSize chunks1 [] (splitWhite s)
        combineLoop maxSize ran.1 ran.2 ss
      else combineLoop maxSize chunks1 (s ++ [' ']) ss

/-- The force-split fallback (recording_processor.py:874-876):
`text[i:i+max_size]` slices.  (`maxSize = 0` would raise in Python; it is
unreachable — the callers pass 10000 or 4000.) -/
def forceSplit (text : List Char) (maxSize : Nat) : List (List Char) :=
  if text.isEmpty then []
  else if text.length ≤ maxSize ∨ maxSize = 0 then [text]
  else text.take maxSize :: forceSplit (text.drop maxSize) maxSize
termination_by text.length
decreasing_by
  have := List.length_drop maxSize text
  omega

/-- Embeds `RecordingProcessorGoogle._split_text_into_chunks`
(recording_processor.py:787-879).  `len(text)` comparisons are in
characters (Python string length), not bytes. -/
def splitTextIntoChunks (text : List Char) (maxSize : Nat) :
    List (List Char) :=
  if text.length ≤ maxSize then [text]
  else
    let scanned := sentenceScan [] text
    let sentences1 :=
      if (pyStrip scanned.2).isEmpty then scanned.1
      else scanned.1 ++ [scanned.2]
    let sentences :=
      if sentences1.length ≤ 1 then
        if text.contains '\n' then splitNewline text
        else wordsFallbackLoop (maxSize / 2) [] [] (splitSpace text)
      else sentences1
    let combined := combineLoop maxSize [] [] sentences
    let chunks :=
      if (pyStrip combined.2).isEmpty then combined.1
      else combined.1 ++ [pyStrip combined.2]
    if chunks.isEmpty then forceSplit text maxSize else chunks

/-- The service-list construction of `translate_text`
(recording_processor.py:712-737): preference entries filtered by
availability (`translate_client` present for `google_cloud`,
`DEEP_TRANSLATOR_AVAILABLE` for the rest), with the fixed fallback list
when the filtered preference is empty. -/
def buildServices (translateClient deepAvail : Bool)
    (preference : List String) : List String :=
  let fromPref := preference.filter (fun s =>
    (s == "google_cloud" && translateClient) ||
    ((s == "free_google" || s == "mymemory" || s == "libretranslate" ||
      s == "pons") && deepAvail))
  if fromPref.isEmpty then
    (if translateClient then ["google_cloud"] else []) ++
    (if deepAvail then
      ["free_google", "mymemory", "libretranslate", "pons"] else [])
  else fromPref

/-- The per-service chunk loop of `translate_text`
(recording_processor.py:741-756): whitespace-only chunks pass through
untranslated and without a provider call; a failed chunk aborts the
service (`all_success = False; break`).  `last` threads Python's leaking
loop variable `result` (the most recent provider result, surviving across
iterations).  Returns `all_success`, the translated chunks, the final
`result`, and the trace of provider calls made. -/
def tryChunks
    (svcCall : String → List Char → String → String → SvcResult)
    (svc src tgt : String) :
    Option SvcResult → List (List Char) →
      Bool × List (List Char) × Option SvcResult ×
        List (String × List Char)
  | last, [] => (true, [], last, [])
  | last, chunk :: rest =>
    if (pyStrip chunk).isEmpty then
      let next := tryChunks svcCall svc src tgt last rest
      (next.1, chunk :: next.2.1, next.2.2.1, next.2.2.2)
    else
      let r := svcCall svc chunk src tgt
      if r.success then
        let next := tryChunks svcCall svc src tgt (some r) rest
        (next.1, r.translatedText :: next.2.1, next.2.2.1,
         (svc, chunk) :: next.2.2.2)
      else (false, [], some r, [(svc, chunk)])

/-- The service loop of `translate_text` (recording_processor.py:741-764):
try each service in order until one translates every chunk; on full
success read `successful_service` from the last provider result (when no
call was ever made, `result` is unbound — the `NameError` is swallowed by
the loop's `except` and the next service is tried).  Returns the
successful chunk list and service name (or `none`), plus the provider-call
trace. -/
def tryServices
    (svcCall : String → List Char → String → String → SvcResult)
    (src tgt : String) (chunks : List (List Char)) :
    Option SvcResult → List String →
      Option (List (List Char) × String) × List (String × List Char)
  | _, [] => (none, [])
  | last, svc :: rest =>
    let ran := tryChunks svcCall svc src tgt last chunks
    if ran.1 then
      match ran.2.2.1 with
      | some r => (some (ran.2.1, r.service.getD svc), ran.2.2.2)
      | none =>
        let next := tryServices svcCall src tgt chunks ran.2.2.1 rest
        (next.1, ran.2.2.2 ++ next.2)
    else
      let next := tryServices svcCall src tgt chunks ran.2.2.1 rest
      (next.1, ran.2.2.2 ++ next.2)

/-- The dict `translate_text` returns
(recording_processor.py:695-702, 770-777, 1062-1136), reduced to the
entries the claims inspect (`service` is `none` on the offline-fallback
shapes, which carry no or a different service marker). -/
structure TransResult where
  translatedText : List Char
  sourceLanguage : String
  targetLanguage : String
  success : Bool
  service : Option String
deriving DecidableEq, Repr

/-- `' '.join(chunks)` (recording_processor.py:767). -/
def joinSpace : List (List Char) → List Char
  | [] => []
  | [x] => x
  | x :: xs => x ++ [' '] ++ joinSpace xs

/-- The offline phrase tables of `_get_offline_translation`
(recording_processor.py:1069-1093). -/
def simpleTranslations (lang : String) : List (String × String) :=
  if lang = "hi" then
    [("hello", "नमस्ते"), ("hello world", "नमस्ते दुनिया"),
     ("how are you", "आप कैसे हैं"), ("thank you", "धन्यवाद"),
     ("goodbye", "अलविदा"), ("yes", "हाँ"), ("no", "नहीं")]
  else if lang = "bn" then
    [("hello", "নমস্কার"), ("hello world", "নমস্কার পৃথিবী"),
     ("how are you", "আপনি কেমন আছেন"), ("thank you", "ধন্যবাদ"),
     ("goodbye", "বিদায়")]
  else if lang = "en" then
    [("hello", "hello"), ("hello world", "hello world"),
     ("how are you", "how are you"), ("thank you", "thank you"),
     ("goodbye", "goodbye")]
  else []

/-- `target_lang in simple_translations` (the table's keys). -/
def supportedOffline (lang : String) : Bool :=
  lang == "hi" || lang == "bn" || lang == "en"

/-- Embeds `_get_offline_translation`
(recording_processor.py:1062-1136): look the lowercased, stripped text up
in the phrase table (or its reversal), falling back to the original text;
`success` is whether the lookup changed the text. -/
def getOfflineTranslation (text : List Char) (src tgt : String) :
    TransResult :=
  let textLower := String.mk (pyStrip (text.map Char.toLower))
  if supportedOffline tgt && src == "en" then
    let translated :=
      (((simpleTranslations tgt).lookup textLower).map
        String.toList).getD text
    { translatedText := translated, sourceLanguage := src,
      targetLanguage := tgt, success := !(translated == text),
      service := none }
  else if supportedOffline src && tgt == "en" then
    let translated :=
      ((((simpleTranslations src).map (fun p => (p.2, p.1))).lookup
        textLower).map String.toList).getD text
    { translatedText := translated, sourceLanguage := src,
      targetLanguage := tgt, success := !(translated == text),
      service := none }
  else
    { translatedText := text, sourceLanguage := src,
      targetLanguage := tgt, success := false, service := none }

/-- Embeds `RecordingProcessorGoogle.translate_text`
(recording_processor.py:692-785).  `translateClient` and `deepAvail` model
the two availability globals; `preference` is
`self.translation_preference`; `svcCall` is the provider oracle (each
`_translate_with_*` method, keyed by service name).  The second component
is the trace of provider calls made — empty on the identity path: when the
source and target languages coincide (or the text is whitespace-only) the
input text is returned unchanged with `success=True` and service
`"no_translation_needed"`, before any chunking or provider lookup. -/
def translateText (translateClient deepAvail : Bool)
    (preference : List String)
    (svcCall : String → List Char → String → String → SvcResult)
    (text : List Char) (sourceLang targetLang : String) :
    TransResult × List (String × List Char) :=
  if sourceLang == targetLang || (pyStrip text).isEmpty then
    ({ translatedText := text, sourceLanguage := sourceLang,
       targetLanguage := targetLang, success := true,
       service := some "no_translation_needed" }, [])
  else
    let maxChunkSize :=
      if (preference.take 2).contains "google_cloud" then 10000 else 4000
    let chunks := splitTextIntoChunks text maxChunkSize
    let services := buildServices translateClient deepAvail preference
    let ran := tryServices svcCall sourceLang targetLang chunks none
      services
    match ran.1 with
    | some (ts, svcName) =>
      ({ translatedText := joinSpace ts, sourceLanguage := sourceLang,
         targetLanguage := targetLang, success := true,
         service := some svcName }, ran.2)
    | none => (getOfflineTranslation text sourceLang targetLang, ran.2)

end RecordingProcessor

/-! ## Transcript monitor

Embeds `TranscriptMonitor` from `transcript_monitor.py`.  File reads,
the orchestrator and the TTS processor are oracles; the processed set and
its on-disk log (`processed_transcripts.json`) are explicit state.
-/

namespace TranscriptMonitor

/-- `s.strip()` on a Lean `String`. -/
def pyStripS (s : String) : String :=
  String.mk (RecordingProcessor.pyStrip s.toList)

/-- `s.lower()` on a Lean `String` (ASCII case folding — the texts the
monitor inspects are ASCII). -/
def lowerS (s : String) : String :=
  String.mk (s.toList.map Char.toLower)

/-- `hay.startswith(needle)`. -/
def pyStartsWith : List Char → List Char → Bool
  | [], _ => true
  | _ :: _, [] => false
  | c :: cs, d :: ds => c == d && pyStartsWith cs ds

/-- Python's `needle in hay` substring test. -/
def containsSub (needle : List Char) : List Char → Bool
  | [] => needle.isEmpty
  | c :: rest => pyStartsWith needle (c :: rest) || containsSub needle rest

/-- A parsed transcript JSON, reduced to the fields the monitor reads:
the top-level `success`, `transcription.transcript`,
`transcription.language`, `translation.success` and
`translation.translated_text`. -/
structure TransData where
  success : Bool
  transcript : String
  language : String
  translationSuccess : Bool
  translatedText : String
deriving DecidableEq, Repr

/-- Embeds `TranscriptMonitor._extract_translated_text`
(transcript_monitor.py:247-283): `None` when the transcript's top-level
`success` is falsy; the raw transcript text when the nested translation
failed; else the stripped translated text, falling back to the stripped
transcript when it is empty. -/
def extractTranslatedText (d : TransData) : Option String :=
  if !d.success then none
  else if !d.translationSuccess then some d.transcript
  else
    let t := pyStripS d.translatedText
    if t = "" then some (pyStripS d.transcript) else some t

/-- The indicator list of `_is_error_response`
(transcript_monitor.py:199-207). -/
def errorIndicators : List String :=
  ["error:", "failed", "exception", "unauthorized", "not found",
   "invalid", "timeout"]

/-- Embeds `TranscriptMonitor._is_error_response`
(transcript_monitor.py:185-218): lowercased and stripped responses
shorter than 20 characters, or containing an indicator substring, count
as errors. -/
def isErrorResponse (response : String) : Bool :=
  let r := pyStripS (lowerS response)
  if r.toList.length < 20 then true
  else errorIndicators.any (fun ind => containsSub ind.toList r.toList)

/-- The inline error check of `_process_with_orchestrator`
(transcript_monitor.py:315-320): `startswith("Error:")`, `"error"` or
`"failed"` in the lowercased response, or stripped length under 10. -/
def orchErrorCheck (response : String) : Bool :=
  pyStartsWith "Error:".toList response.toList ||
  containsSub "error".toList (lowerS response).toList ||
  containsSub "failed".toList (lowerS response).toList ||
  decide ((pyStripS response).toList.length < 10)

/-- A saved response JSON (`_save_response`,
transcript_monitor.py:339-378), reduced to the fields the claims
inspect. -/
structure ResponseArtifact where
  farmerInput : String
  orchestratorResponse : String
deriving DecidableEq, Repr

/-- Embeds `TranscriptMonitor._process_with_orchestrator`
(transcript_monitor.py:285-337): when the orchestrator is available (the
source retries initialisation once; `orchAvailable` is the
post-retry availability) call it, reject responses that look like errors,
and save accepted responses.  Returns the returned response (or `none`),
the saved response artifacts, and the trace of orchestrator
invocations. -/
def processWithOrchestrator (orchAvailable : Bool)
    (orch : String → String) (translatedText : String) :
    Option String × List ResponseArtifact × List String :=
  if !orchAvailable then (none, [], [])
  else
    let response := orch translatedText
    if orchErrorCheck response then (none, [], [translatedText])
    else
      (some response,
       [{ farmerInput := translatedText,
          orchestratorResponse := response }],
       [translatedText])

/-- The observable shape of one `_generate_audio_response` run
(transcript_monitor.py:380-439): the `(text, source_lang, target_lang)`
arguments passed to `translate_text`, and the text handed on to
`generate_multilingual_audio`. -/
structure DeliveryRec where
  translateArgs : String × String × String
  textForAudio : String
deriving DecidableEq, Repr

/-- Embeds `TranscriptMonitor._generate_audio_response`
(transcript_monitor.py:380-439): translate the orchestrator's response
with `source_lang="en"`, `target_lang="hi"` — both hardcoded — through the
TTS processor's `translate_text`, falling back to the untranslated
response text on failure, then hand the result to audio generation. -/
def generateAudioResponse (ttsAvailable tc da : Bool)
    (pref : List String)
    (svcCall : String → List Char → String → String →
      RecordingProcessor.SvcResult)
    (responseText : String) : Option DeliveryRec :=
  if !ttsAvailable then none
  else
    let tr := (RecordingProcessor.translateText tc da pref svcCall
      responseText.toList "en" "hi").1
    let hindiText :=
      if tr.success then String.mk tr.translatedText else responseText
    some { translateArgs := (responseText, "en", "hi"),
           textForAudio := hindiText }

/-- The monitor's shared state: the in-memory processed set and the
persisted `processed_transcripts.json` contents. -/
structure MonState where
  processed : List String
  persisted : List String
deriving DecidableEq, Repr

/-- Everything observable about one `_process_transcript_file` run. -/
structure MonOutcome where
  state : MonState
  orchCalls : List String
  responsesSaved : List ResponseArtifact
  delivery : Option DeliveryRec
deriving Repr

/-- Embeds `TranscriptMonitor._process_transcript_file`
(transcript_monitor.py:136-183) on the non-raising paths: skip files
already in the processed set; give up (without marking) when the read or
the text extraction fails or yields falsy text; otherwise run the
orchestrator, generate audio only for non-error responses, and finally —
regardless of the orchestrator's or audio generation's outcome — add the
filename to the processed set and persist the whole set
(`_save_processed_files`, transcript_monitor.py:111-121). -/
def processTranscriptFile (st : MonState) (filename : String)
    (readResult : Option TransData) (orchAvailable : Bool)
    (orch : String → String) (ttsAvailable tc da : Bool)
    (pref : List String)
    (svcCall : String → List Char → String → String →
      RecordingProcessor.SvcResult) : MonOutcome :=
  if st.processed.contains filename then
    { state := st, orchCalls := [], responsesSaved := [],
      delivery := none }
  else
    match readResult with
    | none =>
      { state := st, orchCalls := [], responsesSaved := [],
        delivery := none }
    | some d =>
      match extractTranslatedText d with
      | none =>
        { state := st, orchCalls := [], responsesSaved := [],
          delivery := none }
      | some t =>
        if t = "" then
          { state := st, orchCalls := [], responsesSaved := [],
            delivery := none }
        else
          let orchRan := processWithOrchestrator orchAvailable orch t
          let delivery :=
            match orchRan.1 with
            | some r =>
              if !(isErrorResponse r) then
                generateAudioResponse ttsAvailable tc da pref svcCall r
              else none
            | none => none
          let processed := AudioFetcher.setAdd filename st.processed
          { state := { processed := processed, persisted := processed },
            orchCalls := orchRan.2.2,
            responsesSaved := orchRan.2.1,
            delivery := delivery }

/-- Startup: `_load_processed_files` (transcript_monitor.py:99-109)
initialises the in-memory set from the on-disk log. -/
def loadMonitor (log : List String) : MonState :=
  { processed := log, persisted := log }

/-- A transcript whose detected source language is Telugu (`"te"`). -/
def teluguTranscript : TransData :=
  { success := true, transcript := "మీ పంటకు నీరు",
    language := "te", translationSuccess := true,
    translatedText := "My crop needs irrigation advice please" }

/-- A transcript whose detected source language is Hindi (`"hi"`) — the
same code the delivery stage hardcodes as its translation target. -/
def hindiTranscript : TransData :=
  { success := true, transcript := "मेरी फसल को पानी",
    language := "hi", translationSuccess := true,
    translatedText := "My crop needs irrigation advice please" }

/-- A clean advisory answer (long enough and free of error
indicators). -/
def adviceText : String :=
  "You should water your cotton crop twice weekly and check the " ++
  "soil moisture each morning before deciding on further watering."

/-- An orchestrator oracle returning `adviceText`. -/
def adviceOracle : String → String := fun _ => adviceText

/-- A provider oracle that translates every chunk to a fixed Hindi
sentence. -/
def svcHindi :
    String → List Char → String → String → RecordingProcessor.SvcResult :=
  fun _ _ _ _ =>
    { translatedText := "आपको सिंचाई करनी चाहिए".toList,
      service := some "google_cloud", success := true }

end TranscriptMonitor

end AgriPipeline

namespace AgriPipeline

/-! ### Helper lemmas about the orchestrator dispatch loop -/

theorem dispatchLoop_events (oracle : String → Orchestrator.AgentResp)
    (st : Orchestrator.DispatchState) (l : List String) :
    (Orchestrator.dispatchLoop oracle st l).events =
      st.events ++ Orchestrator.dispatchEvents l := by
  induction l generalizing st with
  | nil => simp [Orchestrator.dispatchLoop, Orchestrator.dispatchEvents]
  | cons name rest ih =>
    simp only [Orchestrator.dispatchLoop, Orchestrator.dispatchEvents]
    by_cases h : Orchestrator.knownAgent name = true
    · simp [h, ih, List.append_assoc]
    · simp [h, ih]

theorem dispatchLoop_used (oracle : String → Orchestrator.AgentResp)
    (st : Orchestrator.DispatchState) (l : List String) :
    (Orchestrator.dispatchLoop oracle st l).agentsUsed =
      st.agentsUsed ++ l.filter (fun n => Orchestrator.knownAgent n) := by
  induction l generalizing st with
  | nil => simp [Orchestrator.dispatchLoop]
  | cons name rest ih =>
    simp only [Orchestrator.dispatchLoop, List.filter_cons]
    by_cases h : Orchestrator.knownAgent name = true
    · simp [h, ih, List.append_assoc]
    · simp [h, ih]

theorem dictInsert_lookup_self (k : String) (v : Orchestrator.AgentResp)
    (d : List (String × Orchestrator.AgentResp)) :
    (Orchestrator.dictInsert k v d).lookup k = some v := by
  induction d with
  | nil => simp [Orchestrator.dictInsert, List.lookup]
  | cons p rest ih =>
    obtain ⟨k', v'⟩ := p
    simp only [Orchestrator.dictInsert]
    by_cases h : k' = k
    · subst h; simp [List.lookup]
    · have hbeq : (k == k') = false := beq_eq_false_iff_ne.mpr (Ne.symm h)
      simp [h, List.lookup, hbeq, ih]

theorem dictInsert_lookup_ne (name k : String) (hne : name ≠ k)
    (v : Orchestrator.AgentResp)
    (d : List (String × Orchestrator.AgentResp)) :
    (Orchestrator.dictInsert k v d).lookup name = d.lookup name := by
  have hbeq : (name == k) = false := beq_eq_false_iff_ne.mpr hne
  induction d with
  | nil => simp [Orchestrator.dictInsert, List.lookup, hbeq]
  | cons p rest ih =>
    obtain ⟨k', v'⟩ := p
    simp only [Orchestrator.dictInsert]
    by_cases h : k' = k
    · subst h; simp [List.lookup, hbeq]
    · simp [h, List.lookup, ih]

theorem dispatchLoop_lookup (oracle : String → Orchestrator.AgentResp)
    (st : Orchestrator.DispatchState) (l : List String) (name : String)
    (hk : Orchestrator.knownAgent name = true)
    (h : name ∈ l ∨
      st.agentResponses.lookup name = some (oracle name)) :
    ((Orchestrator.dispatchLoop oracle st l).agentResponses).lookup name =
      some (oracle name) := by
  induction l generalizing st with
  | nil =>
    rcases h with h | h
    · cases h
    · simpa [Orchestrator.dispatchLoop] using h
  | cons n rest ih =>
    simp only [Orchestrator.dispatchLoop]
    by_cases hn : Orchestrator.knownAgent n = true
    · simp only [hn, if_true]
      apply ih
      by_cases hne : name = n
      · subst hne
        right
        exact dictInsert_lookup_self name (oracle name) st.agentResponses
      · rcases h with h | h
        · rcases List.mem_cons.mp h with h | h
          · exact absurd h hne
          · exact Or.inl h
        · right
          rw [dictInsert_lookup_ne name n hne]
          exact h
    · simp only [hn, if_false]
      apply ih
      rcases h with h | h
      · rcases List.mem_cons.mp h with h | h
        · subst h; exact absurd hk hn
        · exact Or.inl h
      · exact Or.inr h

theorem seqEvents_dispatchEvents (l : List String) :
    Orchestrator.seqEvents (Orchestrator.dispatchEvents l) = true := by
  induction l with
  | nil => rfl
  | cons n rest ih =>
    simp only [Orchestrator.dispatchEvents]
    by_cases h : Orchestrator.knownAgent n = true
    · simp [h, Orchestrator.seqEvents, ih]
    · simp [h, ih]

theorem dispatchEvents_pairs (l : List String) (a : String) :
    Orchestrator.Event.callStart a ∈ Orchestrator.dispatchEvents l ↔
      Orchestrator.Event.callEnd a ∈ Orchestrator.dispatchEvents l := by
  induction l with
  | nil => simp [Orchestrator.dispatchEvents]
  | cons n rest ih =>
    simp only [Orchestrator.dispatchEvents]
    by_cases h : Orchestrator.knownAgent n = true
    · simp [h, ih]
    · simpa [h] using ih

/-! ### Helper lemmas about the audio fetcher -/

theorem setAdd_subset (x : String) (s : List String) :
    s ⊆ AudioFetcher.setAdd x s := by
  unfold AudioFetcher.setAdd
  split
  · exact fun a ha => ha
  · exact fun a ha => List.mem_append_left _ ha

theorem processAudioFile_processed_mono (obs : String → Nat → AudioFetcher.Obs)
    (pa : Bool) (ps : String → Bool) (processed : List String) (f : String) :
    processed ⊆ (AudioFetcher.processAudioFile obs pa ps processed f).2.1 := by
  unfold AudioFetcher.processAudioFile
  split_ifs <;> first
    | exact fun a ha => ha
    | exact setAdd_subset f processed

theorem processAudioFile_trace_cases (obs : String → Nat → AudioFetcher.Obs)
    (pa : Bool) (ps : String → Bool) (processed : List String) (f : String) :
    (AudioFetcher.processAudioFile obs pa ps processed f).2.2 = [] ∨
    (AudioFetcher.processAudioFile obs pa ps processed f).2.2 = [f] := by
  unfold AudioFetcher.processAudioFile
  split_ifs <;> simp

theorem processFilesLoop_mono (obs : String → Nat → AudioFetcher.Obs)
    (pa : Bool) (ps : String → Bool) (processed files : List String) :
    processed ⊆ (AudioFetcher.processFilesLoop obs pa ps processed files).1 := by
  induction files generalizing processed with
  | nil => exact fun a ha => ha
  | cons f rest ih =>
    exact List.Subset.trans
      (processAudioFile_processed_mono obs pa ps processed f) (ih _)

theorem processFilesLoop_trace_sub (obs : String → Nat → AudioFetcher.Obs)
    (pa : Bool) (ps : String → Bool) (processed files : List String) :
    (AudioFetcher.processFilesLoop obs pa ps processed files).2 ⊆ files := by
  induction files generalizing processed with
  | nil => simp [AudioFetcher.processFilesLoop]
  | cons f rest ih =>
    show (AudioFetcher.processAudioFile obs pa ps processed f).2.2 ++ _ ⊆ _
    apply List.append_subset.mpr
    constructor
    · rcases processAudioFile_trace_cases obs pa ps processed f with h | h <;>
        rw [h] <;> simp
    · exact List.Subset.trans (ih _) (List.subset_cons_self f rest)

theorem processFilesLoop_trace_count (obs : String → Nat → AudioFetcher.Obs)
    (pa : Bool) (ps : String → Bool) (processed files : List String)
    (f : String) :
    (AudioFetcher.processFilesLoop obs pa ps processed files).2.count f ≤
      files.count f := by
  induction files generalizing processed with
  | nil => simp [AudioFetcher.processFilesLoop]
  | cons g rest ih =>
    show ((AudioFetcher.processAudioFile obs pa ps processed g).2.2 ++ _).count f ≤ _
    rw [List.count_append, List.count_cons]
    have hg := ih (AudioFetcher.processAudioFile obs pa ps processed g).2.1
    rcases processAudioFile_trace_cases obs pa ps processed g with h | h <;>
      rw [h] <;> simp only [List.count_nil, List.count_singleton] <;> omega

theorem fetchFilesOnce_mono (dir : List String)
    (obs : String → Nat → AudioFetcher.Obs) (pa : Bool)
    (ps : String → Bool) (st : AudioFetcher.FetcherState) :
    st.processed ⊆
      (AudioFetcher.fetchFilesOnce dir obs pa ps st).1.processed :=
  processFilesLoop_mono obs pa ps st.processed _

theorem fetchFilesOnce_no_repeat (dir : List String)
    (obs : String → Nat → AudioFetcher.Obs) (pa : Bool)
    (ps : String → Bool) (st : AudioFetcher.FetcherState) (f : String)
    (h : f ∈ st.processed) :
    f ∉ (AudioFetcher.fetchFilesOnce dir obs pa ps st).2 := by
  intro hmem
  have hnew : f ∈ AudioFetcher.findNewAudioFiles dir st.processed :=
    processFilesLoop_trace_sub obs pa ps st.processed _ hmem
  have hcond := (List.mem_filter.mp hnew).2
  simp only [Bool.and_eq_true, Bool.not_eq_true'] at hcond
  have hc : st.processed.contains f = true := by
    simpa using h
  rw [hcond.2] at hc
  cases hc

theorem fetchFilesOnce_at_most_once (dir : List String)
    (obs : String → Nat → AudioFetcher.Obs) (pa : Bool)
    (ps : String → Bool) (st : AudioFetcher.FetcherState) (f : String)
    (hnodup : dir.Nodup) :
    (AudioFetcher.fetchFilesOnce dir obs pa ps st).2.count f ≤ 1 := by
  have h1 := processFilesLoop_trace_count obs pa ps st.processed
    (AudioFetcher.findNewAudioFiles dir st.processed) f
  have h2 : (AudioFetcher.findNewAudioFiles dir st.processed).count f ≤ 1 :=
    List.nodup_iff_count_le_one.mp (hnodup.filter _) f
  exact le_trans h1 h2

theorem runScans_mono (dir : List String)
    (obs : String → Nat → AudioFetcher.Obs) (pa : Bool)
    (ps : String → Bool) (st : AudioFetcher.FetcherState) (n : Nat) :
    st.processed ⊆
      (AudioFetcher.runScans dir obs pa ps st n).1.processed := by
  induction n generalizing st with
  | zero => exact fun a ha => ha
  | succ n ih =>
    exact List.Subset.trans (fetchFilesOnce_mono dir obs pa ps st) (ih _)

theorem runScans_no_repeat (dir : List String)
    (obs : String → Nat → AudioFetcher.Obs) (pa : Bool)
    (ps : String → Bool) (st : AudioFetcher.FetcherState) (n : Nat)
    (f : String) (h : f ∈ st.processed) :
    f ∉ (AudioFetcher.runScans dir obs pa ps st n).2 := by
  induction n generalizing st with
  | zero => simp [AudioFetcher.runScans]
  | succ n ih =>
    show f ∉ (AudioFetcher.fetchFilesOnce dir obs pa ps st).2 ++ _
    rw [List.mem_append]
    push_neg
    exact ⟨fetchFilesOnce_no_repeat dir obs pa ps st f h,
      ih _ (fetchFilesOnce_mono dir obs pa ps st h)⟩

theorem runScans_persisted_grows (dir : List String)
    (obs : String → Nat → AudioFetcher.Obs) (pa : Bool)
    (ps : String → Bool) (st : AudioFetcher.FetcherState) (n : Nat)
    (h : st.persisted ⊆ st.processed) :
    st.persisted ⊆
      (AudioFetcher.runScans dir obs pa ps st n).1.persisted := by
  induction n generalizing st with
  | zero => exact fun a ha => ha
  | succ n ih =>
    have hstep : st.persisted ⊆
        (AudioFetcher.fetchFilesOnce dir obs pa ps st).1.persisted :=
      List.Subset.trans h (fetchFilesOnce_mono dir obs pa ps st)
    exact List.Subset.trans hstep (ih _ (fun a ha => ha))

/-! ### Helper lemma about the completeness-gate poll loop -/

theorem isFileReadyLoop_sound (o : Nat → AudioFetcher.Obs) (st : Nat) :
    ∀ (fuel v sc tw : Nat), sc ≤ tw →
    (∀ i, i ≤ sc → (o (tw - i)).size = some v) →
    AudioFetcher.isFileReadyLoop o st v sc tw fuel = true →
    (∃ t, tw < t ∧ t ≤ tw + fuel ∧ (o t).marker = true) ∨
    (∃ t w, tw < t ∧ t ≤ tw + fuel ∧ st ≤ t ∧
      ∀ i, i ≤ st → (o (t - i)).size = some w) := by
  intro fuel
  induction fuel with
  | zero =>
    intro v sc tw _ _ hrun
    exact absurd hrun (by simp [AudioFetcher.isFileReadyLoop])
  | succ fuel ih =>
    intro v sc tw hsc hinv hrun
    simp only [AudioFetcher.isFileReadyLoop] at hrun
    by_cases hm : (o (tw + 1)).marker = true
    · exact Or.inl ⟨tw + 1, by omega, by omega, hm⟩
    · rw [if_neg hm] at hrun
      cases hsize : (o (tw + 1)).size with
      | none => rw [hsize] at hrun; simp at hrun
      | some current =>
        rw [hsize] at hrun
        replace hrun : (if current = v then
            (if st ≤ sc + 1 then true
             else AudioFetcher.isFileReadyLoop o st v (sc + 1) (tw + 1) fuel)
          else AudioFetcher.isFileReadyLoop o st current 0 (tw + 1) fuel) =
            true := hrun
        by_cases hc : current = v
        · rw [if_pos hc] at hrun
          by_cases hst : st ≤ sc + 1
          · refine Or.inr ⟨tw + 1, current, by omega, by omega, by omega, ?_⟩
            intro i hi
            match i with
            | 0 => simpa using hsize
            | Nat.succ j =>
              have : (o (tw - j)).size = some v := hinv j (by omega)
              have heq : tw + 1 - (j + 1) = tw - j := by omega
              rw [heq, this, hc]
          · rw [if_neg hst] at hrun
            have hinv' : ∀ i, i ≤ sc + 1 →
                (o (tw + 1 - i)).size = some v := by
              intro i hi
              match i with
              | 0 => simpa [hc] using hsize
              | Nat.succ j =>
                have heq : tw + 1 - (j + 1) = tw - j := by omega
                rw [heq]; exact hinv j (by omega)
            rcases ih v (sc + 1) (tw + 1) (by omega) hinv' hrun with
              ⟨t, h1, h2, h3⟩ | ⟨t, w, h1, h2, h3, h4⟩
            · exact Or.inl ⟨t, by omega, by omega, h3⟩
            · exact Or.inr ⟨t, w, by omega, by omega, h3, h4⟩
        · rw [if_neg hc] at hrun
          have hinv' : ∀ i, i ≤ 0 → (o (tw + 1 - i)).size = some current := by
            intro i hi
            match i with
            | 0 => simpa using hsize
          rcases ih current 0 (tw + 1) (by omega) hinv' hrun with
            ⟨t, h1, h2, h3⟩ | ⟨t, w, h1, h2, h3, h4⟩
          · exact Or.inl ⟨t, by omega, by omega, h3⟩
          · exact Or.inr ⟨t, w, by omega, by omega, h3, h4⟩

/-! ### Helper lemmas about the transcript monitor -/

theorem setAdd_mem (x : String) (s : List String) :
    x ∈ AudioFetcher.setAdd x s := by
  unfold AudioFetcher.setAdd
  split
  · assumption
  · exact List.mem_append_right _ (List.mem_singleton.mpr rfl)

theorem gar_shape (tts tc da : Bool) (pref : List String)
    (svcCall : String → List Char → String → String →
      RecordingProcessor.SvcResult)
    (resp : String) (rec : TranscriptMonitor.DeliveryRec)
    (h : TranscriptMonitor.generateAudioResponse tts tc da pref svcCall
      resp = some rec) :
    rec.translateArgs = (resp, "en", "hi") := by
  unfold TranscriptMonitor.generateAudioResponse at h
  rcases tts with _ | _
  · simp at h
  · simp only [Bool.not_true, Bool.false_eq_true, if_false] at h
    rw [← Option.some.inj h]

theorem ptf_delivery_shape (st : TranscriptMonitor.MonState)
    (fn : String) (rd : Option TranscriptMonitor.TransData)
    (orchAvail : Bool) (orch : String → String) (tts tc da : Bool)
    (pref : List String)
    (svcCall : String → List Char → String → String →
      RecordingProcessor.SvcResult) :
    (TranscriptMonitor.processTranscriptFile st fn rd orchAvail orch tts
      tc da pref svcCall).delivery = none ∨
    ∃ resp,
      (TranscriptMonitor.processTranscriptFile st fn rd orchAvail orch
        tts tc da pref svcCall).delivery =
        TranscriptMonitor.generateAudioResponse tts tc da pref svcCall
          resp := by
  unfold TranscriptMonitor.processTranscriptFile
  split
  · left; rfl
  · split
    · left; rfl
    · split
      · left; rfl
      · split
        · left; rfl
        · dsimp only
          split
          · split
            · right; exact ⟨_, rfl⟩
            · left; rfl
          · left; rfl

/-- **C7, counterexample.**  The claim states that every validated range has
`end_date ≤ today + 16`.  At `today = 0` with LLM-extracted dates
`start = 20, end = 5` (start beyond the forecast horizon), the code first
leaves `start` alone (it is not in the past), leaves `end` alone (it is not
beyond the horizon), and then, because `end ≤ start`, sets
`end := start + 7 = 27 > today + 16 = 16`.  The claimed horizon bound is
violated. -/
theorem C7_ce_horizon_violated :
    (WeatherAgent.validateDateParameters 0 (some (20, 5))).2 = 27 ∧
    ¬ (WeatherAgent.validateDateParameters 0 (some (20, 5))).2 ≤ 0 + 16 := by
  decide

/-- **C7, amended.**  For every validated parameter set: `start_date` is not
before today, `end_date` is strictly after `start_date`, and `end_date` is at
most `max (today + 16) (start_date + 7)` — the 16-day horizon bound holds
only when `start_date` itself lies within the horizon, because the
`end ≤ start` fix-up runs after the horizon clamp.  On date-parse failure the
range defaults to `today .. today + 7`, and on extraction failure
`_get_default_parameters` returns the profile pincode (default `"110001"`)
with the range `today .. today + 7`. -/
theorem C7_validate_date_parameters_spec (today : Int)
    (parsed : Option (Int × Int)) (pincode : String) :
    (today ≤ (WeatherAgent.validateDateParameters today parsed).1 ∧
     (WeatherAgent.validateDateParameters today parsed).1 <
       (WeatherAgent.validateDateParameters today parsed).2 ∧
     (WeatherAgent.validateDateParameters today parsed).2 ≤
       max (today + 16)
         ((WeatherAgent.validateDateParameters today parsed).1 + 7)) ∧
    WeatherAgent.validateDateParameters today none = (today, today + 7) ∧
    WeatherAgent.getDefaultParameters (some pincode) today =
      (pincode, today, today + 7) ∧
    WeatherAgent.getDefaultParameters none today =
      ("110001", today, today + 7) := by
  refine ⟨?_, rfl, rfl, rfl⟩
  match parsed with
  | none =>
    show today ≤ today ∧ today < today + 7 ∧ today + 7 ≤ _
    rw [le_max_iff]
    omega
  | some (s0, e0) =>
    have hdef : WeatherAgent.validateDateParameters today (some (s0, e0)) =
        (if s0 < today then today else s0,
          if (if e0 > today + 16 then today + 16 else e0) ≤
              (if s0 < today then today else s0) then
            (if s0 < today then today else s0) + 7
          else if e0 > today + 16 then today + 16 else e0) := rfl
    rw [hdef, le_max_iff]
    dsimp only
    split_ifs <;> omega

/-- **C1, counterexample.**  The claim states that when no specialist
returns Ok, `process_farmer_request` returns an `AllAgentsFailed` error and
no response artifact is produced.  On the oracle where every specialist
returns a hard-failure response (`status = "error"`), the specific pipeline
with agents `["weather", "pest"]` still records both failed findings,
still synthesises, and returns a combined response with
`status = "success"` and a non-empty `farmer_response` — there is no
`AllAgentsFailed` (or any other) error return in the code. -/
theorem C1_ce_success_despite_all_agents_failed :
    (Orchestrator.executeSpecificPipeline Orchestrator.oracleAllFailed
        "synthesised answer" ["weather", "pest"]).1.status = "success" ∧
    (Orchestrator.executeSpecificPipeline Orchestrator.oracleAllFailed
        "synthesised answer" ["weather", "pest"]).1.farmerResponse =
      "synthesised answer" ∧
    (Orchestrator.executeSpecificPipeline Orchestrator.oracleAllFailed
        "synthesised answer" ["weather", "pest"]).1.agentResponses =
      [("weather", { status := some "error", body := "weather" }),
       ("pest", { status := some "error", body := "pest" })] ∧
    Orchestrator.processFarmerRequest Orchestrator.oracleAllFailed
        "synthesised answer" "s" "r" "h"
        (fun pr => pr.farmerResponse) (fun g => g.comprehensiveStrategy)
        "specific" ["weather", "pest"] = "synthesised answer" := by
  refine ⟨rfl, rfl, ?_, rfl⟩
  decide

/-- **C1, amended.**  A specialist returning a `Failed` (non-success)
result is recorded as that one finding and does not abort the collection of
the remaining listed specialists' findings: every recognised listed agent
is invoked and its response stored regardless of the other agents'
statuses.  However, when no specialist returns Ok the orchestrator does
*not* return an `AllAgentsFailed` error: both pipelines unconditionally
return a combined response with `status = "success"` (synthesised from
whatever findings, possibly none, reported success). -/
theorem C1_failed_finding_recorded_no_all_agents_failed
    (oracle : String → Orchestrator.AgentResp)
    (synth stra road hyp : String) (required : List String)
    (name : String) :
    (Orchestrator.executeSpecificPipeline oracle synth
        required).1.status = "success" ∧
    (Orchestrator.executeSpecificPipeline oracle synth
        required).1.agentsUsed =
      required.filter (fun n => Orchestrator.knownAgent n) ∧
    (Orchestrator.knownAgent name = true → name ∈ required →
      ((Orchestrator.executeSpecificPipeline oracle synth
          required).1.agentResponses).lookup name = some (oracle name)) ∧
    (Orchestrator.executeGenericPipeline oracle stra road
        hyp).1.status = "success" ∧
    (Orchestrator.executeGenericPipeline oracle stra road
        hyp).1.agentIntelligence =
      [("weather", oracle "weather"), ("soil", oracle "soil"),
       ("pest", oracle "pest"), ("scheme", oracle "scheme")] := by
  refine ⟨rfl, ?_, ?_, rfl, rfl⟩
  · show (Orchestrator.dispatchLoop oracle ⟨[], [], []⟩
        required).agentsUsed = _
    rw [dispatchLoop_used]
    rfl
  · intro hk hmem
    exact dispatchLoop_lookup oracle ⟨[], [], []⟩ required name hk
      (Or.inl hmem)

/-- **C1, witness** for the amended theorem: its hypotheses are satisfiable
— on a concrete one-agent run the failed weather finding is recorded. -/
theorem C1_amended_witness :
    Orchestrator.knownAgent "weather" = true ∧
    "weather" ∈ ["weather"] ∧
    ((Orchestrator.executeSpecificPipeline Orchestrator.oracleAllFailed
        "t" ["weather"]).1.agentResponses).lookup "weather" =
      some (Orchestrator.oracleAllFailed "weather") :=
  ⟨by decide, by decide,
   (C1_failed_finding_recorded_no_all_agents_failed
      Orchestrator.oracleAllFailed "t" "a" "b" "c" ["weather"]
      "weather").2.2.1 (by decide) (by decide)⟩

/-- **C2, counterexample.**  The claim states that the listed specialists
are invoked concurrently.  Concurrent invocation of two specialists means
their invocation intervals overlap in the trace — each one's call starts
before the other's call has returned.  In the trace of the specific
pipeline with agents `["weather", "pest"]` the weather call returns before
the pest call starts (`dispatchLoop` performs one blocking `process_query`
call after another), so the two are not concurrently invoked. -/
theorem C2_ce_calls_not_concurrent :
    ¬ Orchestrator.concurrentlyInvoked
        (Orchestrator.executeSpecificPipeline Orchestrator.oracleAllFailed
          "s" ["weather", "pest"]).2 "weather" "pest" ∧
    Orchestrator.endIdx
        (Orchestrator.executeSpecificPipeline Orchestrator.oracleAllFailed
          "s" ["weather", "pest"]).2 "weather" <
      Orchestrator.startIdx
        (Orchestrator.executeSpecificPipeline Orchestrator.oracleAllFailed
          "s" ["weather", "pest"]).2 "pest" := by
  constructor
  · intro hcon
    exact absurd hcon.2 (by decide)
  · decide

/-- **C2, amended.**  In the Specific pipeline the orchestrator invokes the
listed recognised specialists sequentially, in list order — the event trace
is a concatenation of adjacent `callStart`/`callEnd` pairs, so each call
returns before the next begins — and in the Generic pipeline it invokes all
four specialists sequentially in the fixed order weather, soil, pest,
scheme.  In both cases every dispatched specialist has returned before
synthesis begins: its `callEnd` lies in the dispatch prefix of the trace,
and `synthStart` comes after that whole prefix. -/
theorem C2_dispatch_sequential_before_synthesis
    (oracle : String → Orchestrator.AgentResp) (synth : String)
    (required : List String) :
    (Orchestrator.executeSpecificPipeline oracle synth required).2 =
      Orchestrator.dispatchEvents required ++
        [Orchestrator.Event.synthStart] ∧
    Orchestrator.seqEvents (Orchestrator.dispatchEvents required) = true ∧
    (∀ a, Orchestrator.Event.callStart a ∈
        Orchestrator.dispatchEvents required ↔
      Orchestrator.Event.callEnd a ∈
        Orchestrator.dispatchEvents required) ∧
    (Orchestrator.gatherComprehensiveIntelligence oracle).2 =
      Orchestrator.dispatchEvents ["weather", "soil", "pest", "scheme"] := by
  refine ⟨?_, seqEvents_dispatchEvents required,
    fun a => dispatchEvents_pairs required a, rfl⟩
  show (Orchestrator.dispatchLoop oracle ⟨[], [], []⟩ required).events ++
      [Orchestrator.Event.synthStart] = _
  rw [dispatchLoop_events]
  rfl

/-- **C2, witness** for the amended theorem at a concrete two-agent run. -/
theorem C2_amended_witness :
    (Orchestrator.executeSpecificPipeline Orchestrator.oracleAllFailed
        "s" ["weather", "pest"]).2 =
      Orchestrator.dispatchEvents ["weather", "pest"] ++
        [Orchestrator.Event.synthStart] :=
  (C2_dispatch_sequential_before_synthesis Orchestrator.oracleAllFailed
    "s" ["weather", "pest"]).1

/-- **C3, counterexample.**  The claim states that `Process` is invoked at
most once per file id during a single run, *including when processing that
file fails*.  On a monitor directory containing one ready audio file whose
processing always fails (`process_recording` reports no success), the id is
never added to the processed set (audio_fetcher.py:222-247 adds it only on
success), so the next `fetch_files_once` scan of the same `run_continuous`
loop finds the file again and invokes `process_recording` a second time:
two scans give two invocations for the same id. -/
theorem C3_ce_failed_file_processed_twice :
    (AudioFetcher.runScans ["call1.wav"] AudioFetcher.obsAlwaysMarked true
        (fun _ => false) (AudioFetcher.loadFetcher []) 2).2 =
      ["call1.wav", "call1.wav"] := by
  decide

/-- **C3, amended.**  Within one scan, `Process` is invoked at most once
per id (the directory listing has no duplicates); an id that is in the
processed set is never processed again in any later scan of the run — in
particular an id whose processing *succeeded* is processed at most once per
run — but an id whose processing *failed* is not added to the set and may
be retried on later scans.  The processed set only grows, and the persisted
log (rewritten from the in-memory set on every scan) only grows with it. -/
theorem C3_dedup_monotone_retry_on_failure (dir : List String)
    (obs : String → Nat → AudioFetcher.Obs) (pa : Bool)
    (ps : String → Bool) (st : AudioFetcher.FetcherState) (n : Nat)
    (f : String) (hnodup : dir.Nodup)
    (hpp : st.persisted ⊆ st.processed) :
    st.processed ⊆
      (AudioFetcher.runScans dir obs pa ps st n).1.processed ∧
    st.persisted ⊆
      (AudioFetcher.runScans dir obs pa ps st n).1.persisted ∧
    (AudioFetcher.fetchFilesOnce dir obs pa ps st).2.count f ≤ 1 ∧
    (AudioFetcher.fetchFilesOnce dir obs pa ps st).1.persisted =
      (AudioFetcher.fetchFilesOnce dir obs pa ps st).1.processed ∧
    (f ∈ st.processed →
      f ∉ (AudioFetcher.runScans dir obs pa ps st n).2) :=
  ⟨runScans_mono dir obs pa ps st n,
   runScans_persisted_grows dir obs pa ps st n hpp,
   fetchFilesOnce_at_most_once dir obs pa ps st f hnodup,
   rfl,
   fun h => runScans_no_repeat dir obs pa ps st n f h⟩

/-- **C3, witness** for the amended theorem: on a concrete directory with
one already-processed id, that id is not re-invoked over two scans. -/
theorem C3_amended_witness :
    "done.wav" ∈ ["done.wav"] ∧
    "done.wav" ∉ (AudioFetcher.runScans ["done.wav", "new.wav"]
        AudioFetcher.obsAlwaysMarked true (fun _ => true)
        (AudioFetcher.loadFetcher ["done.wav"]) 2).2 :=
  ⟨by decide,
   (C3_dedup_monotone_retry_on_failure ["done.wav", "new.wav"]
      AudioFetcher.obsAlwaysMarked true (fun _ => true)
      (AudioFetcher.loadFetcher ["done.wav"]) 2 "done.wav" (by decide)
      (fun a ha => ha)).2.2.2.2 (by decide)⟩

/-! ### Helper lemmas about the TTS chunker -/

theorem sds_charH (l : List Char) :
    RecordingProcessor.splitDotSpace ('H' :: l) =
      RecordingProcessor.prepend1 'H' (RecordingProcessor.splitDotSpace l) :=
  rfl

theorem sds_chary (l : List Char) :
    RecordingProcessor.splitDotSpace ('y' :: l) =
      RecordingProcessor.prepend1 'y' (RecordingProcessor.splitDotSpace l) :=
  rfl

theorem sds_dotSpace (l : List Char) :
    RecordingProcessor.splitDotSpace ('.' :: ' ' :: l) =
      [] :: RecordingProcessor.splitDotSpace l :=
  rfl

theorem sds_replicate_y (n : Nat) :
    RecordingProcessor.splitDotSpace (List.replicate n 'y') =
      [List.replicate n 'y'] := by
  induction n with
  | zero => rfl
  | succ m ih => rw [List.replicate_succ, sds_chary, ih]; rfl

theorem utf8Len_foldr_init (a : List Char) (m : Nat) :
    a.foldr (fun c acc => c.utf8Size + acc) m =
      RecordingProcessor.utf8Len a + m := by
  induction a with
  | nil => simp [RecordingProcessor.utf8Len]
  | cons c cs ih =>
    simp only [List.foldr_cons, ih, RecordingProcessor.utf8Len]
    omega

theorem utf8Len_append (a b : List Char) :
    RecordingProcessor.utf8Len (a ++ b) =
      RecordingProcessor.utf8Len a + RecordingProcessor.utf8Len b := by
  show (a ++ b).foldr _ 0 = _
  rw [List.foldr_append, utf8Len_foldr_init]
  rfl

theorem utf8Len_replicate_y (n : Nat) :
    RecordingProcessor.utf8Len (List.replicate n 'y') = n := by
  induction n with
  | zero => rfl
  | succ m ih =>
    rw [List.replicate_succ]
    show 'y'.utf8Size + _ = _
    rw [show (List.replicate m 'y').foldr
      (fun c acc => c.utf8Size + acc) 0 =
        RecordingProcessor.utf8Len (List.replicate m 'y') from rfl, ih,
      show 'y'.utf8Size = 1 from rfl]
    omega

theorem dropWhile_ws_replicate_y (n : Nat) :
    (List.replicate n 'y').dropWhile Char.isWhitespace =
      List.replicate n 'y' := by
  cases n with
  | zero => rfl
  | succ m => rw [List.replicate_succ, List.dropWhile_cons]; simp

theorem pyStrip_replicate_y (n : Nat) :
    RecordingProcessor.pyStrip (List.replicate n 'y') =
      List.replicate n 'y' := by
  unfold RecordingProcessor.pyStrip
  rw [dropWhile_ws_replicate_y, List.reverse_replicate,
    dropWhile_ws_replicate_y, List.reverse_replicate]

theorem sloop_cons (mb : Nat) (last chunks₀ current s ss) :
    RecordingProcessor.sentenceLoop mb last chunks₀ current (s :: ss) =
      (let testSentence := if s ≠ last then s ++ ['.', ' '] else s
       let testChunk := current ++ testSentence
       if RecordingProcessor.utf8Len testChunk > mb then
         if current.isEmpty then
           let ran := RecordingProcessor.wordLoop mb chunks₀ []
             (RecordingProcessor.splitSpace s)
           let newCurrent :=
             if ran.2.isEmpty then []
             else ran.2 ++ (if s ≠ last then ['.', ' '] else [])
           RecordingProcessor.sentenceLoop mb last ran.1 newCurrent ss
         else RecordingProcessor.sentenceLoop mb last
           (chunks₀ ++ [RecordingProcessor.pyStrip current]) testSentence ss
       else RecordingProcessor.sentenceLoop mb last chunks₀ testChunk ss) :=
  rfl

theorem sloop_run (n : Nat) (h : 4498 ≤ n) :
    RecordingProcessor.sentenceLoop 4500 (List.replicate n 'y') [] []
      [['H'], List.replicate n 'y'] =
      ([['H', '.']], List.replicate n 'y') := by
  have hne1 : (['H'] : List Char) ≠ List.replicate n 'y' := by
    intro heq
    have := congrArg List.length heq
    simp at this
    omega
  have hc2 : RecordingProcessor.utf8Len
      ((['H'] ++ ['.', ' ']) ++ List.replicate n 'y') = 3 + n := by
    rw [utf8Len_append, utf8Len_replicate_y]; rfl
  rw [sloop_cons, if_pos hne1]
  dsimp only
  simp only [List.nil_append]
  rw [if_neg (show ¬ RecordingProcessor.utf8Len
    (['H'] ++ ['.', ' ']) > 4500 by decide)]
  rw [sloop_cons]
  rw [if_neg (show ¬ (List.replicate n 'y' ≠ List.replicate n 'y') from
    fun hne => hne rfl)]
  dsimp only
  rw [if_pos (show RecordingProcessor.utf8Len
    (['H'] ++ ['.', ' '] ++ List.replicate n 'y') > 4500 by
      rw [hc2]; omega)]
  rw [if_neg (show ¬ ((['H'] ++ ['.', ' '] : List Char)).isEmpty = true
    by decide)]
  rw [show RecordingProcessor.pyStrip (['H'] ++ ['.', ' ']) = ['H', '.']
    from rfl]
  rfl

theorem chunkTextForTTS_yblock (n : Nat) (h : 4498 ≤ n) :
    RecordingProcessor.chunkTextForTTS
      ("H. ".toList ++ List.replicate n 'y') =
      [['H', '.'], List.replicate n 'y'] := by
  have hlen : RecordingProcessor.utf8Len
      ("H. ".toList ++ List.replicate n 'y') = 3 + n := by
    rw [utf8Len_append, utf8Len_replicate_y]; rfl
  have hsent : RecordingProcessor.splitDotSpace
      ("H. ".toList ++ List.replicate n 'y') =
      [['H'], List.replicate n 'y'] := by
    show RecordingProcessor.splitDotSpace
      ('H' :: '.' :: ' ' :: List.replicate n 'y') = _
    rw [sds_charH, sds_dotSpace, sds_replicate_y]
    rfl
  have hempty : (List.replicate n 'y').isEmpty = false := by
    cases n with
    | zero => omega
    | succ m => rw [List.replicate_succ]; rfl
  unfold RecordingProcessor.chunkTextForTTS
  rw [hlen, if_neg (by omega : ¬ 3 + n ≤ 4500), hsent]
  dsimp only
  rw [show ([['H'], List.replicate n 'y'] : List (List Char)).getLastD [] =
    List.replicate n 'y' from rfl]
  rw [sloop_run n h]
  dsimp only
  rw [hempty]
  rw [pyStrip_replicate_y]
  rfl

/-- **C4, the code violates its own documented budget.**  The claim (and
the function's own docstring, "Split text into chunks that don't exceed
Google Cloud TTS byte limit ... 4500 bytes as a safe limit") requires
every chunk to have UTF-8 byte length at most 4500.  On the text
`"H. " + "y"*4600` the sentence split yields a 4600-byte sentence; since
the current chunk (`"H. "`) is non-empty, the source flushes it and makes
the whole over-long sentence the new current chunk without any size check
(recording_processor.py:1265-1267), and that chunk is emitted whole: the
second returned chunk has UTF-8 byte length 4600 > 4500.  (The word- and
character-level fallbacks are reached only when the current chunk is
empty.) -/
theorem C4_tts_chunk_exceeds_budget :
    RecordingProcessor.chunkTextForTTS RecordingProcessor.c4FailText =
      [['H', '.'], List.replicate 4600 'y'] ∧
    RecordingProcessor.utf8Len (List.replicate 4600 'y') = 4600 ∧
    4500 < 4600 :=
  ⟨chunkTextForTTS_yblock 4600 (by omega), utf8Len_replicate_y 4600,
   by omega⟩

/-- **C5, counterexample.**  The claim states that a transcript artifact
is still written when transcription failed (empty text, `success=false`),
and that the artifact's top-level `success` is falsy when both translation
paths failed.  Both parts fail on the code: with an empty transcript,
`process_recording` returns `success=False` *without writing any
transcript artifact* (recording_processor.py:1660-1667 returns before the
save); and when the transcript is non-empty but every translation path
failed, the artifact that is written carries top-level `"success": True`
hardcoded (recording_processor.py:1685-1691), the failure being visible
only in the nested `translation.success`. -/
theorem C5_ce_empty_transcript_not_written :
    (RecordingProcessor.processRecording true true
        ⟨"", "hi", some "all STT paths failed"⟩ true "en"
        RecordingProcessor.translateAlwaysFails "a.wav").2 = [] ∧
    (RecordingProcessor.processRecording true true
        ⟨"", "hi", some "all STT paths failed"⟩ true "en"
        RecordingProcessor.translateAlwaysFails "a.wav").1.success =
      false ∧
    ((RecordingProcessor.processRecording true true
        ⟨"hello", "hi", none⟩ true "en"
        RecordingProcessor.translateAlwaysFails "b.wav").2.map
      (fun a => (a.success, a.translation.success))) = [(true, false)] := by
  refine ⟨rfl, rfl, rfl⟩

/-- **C5, amended.**  A transcript artifact is written precisely when the
file was ready, conversion did not raise, and transcription produced
non-empty text; every written artifact has top-level `success = true`
(even when translation failed — the failure is recorded only in the nested
`translation.success` field); and when transcription produced empty text
`process_recording` returns `success = false` and writes no transcript
artifact at all. -/
theorem C5_artifact_success_always_true (ready conv : Bool)
    (tr : RecordingProcessor.TranscriptionResult)
    (te : Bool) (tgt : String)
    (oracle : String → String → String → RecordingProcessor.TranslationRecord)
    (fp : String) :
    (∀ a ∈ (RecordingProcessor.processRecording ready conv tr te tgt
        oracle fp).2, a.success = true) ∧
    (tr.transcript = "" →
      (RecordingProcessor.processRecording ready conv tr te tgt
        oracle fp).2 = [] ∧
      (RecordingProcessor.processRecording ready conv tr te tgt
        oracle fp).1.success = false) ∧
    ((RecordingProcessor.processRecording ready conv tr te tgt
        oracle fp).2 ≠ [] ↔
      ready = true ∧ conv = true ∧ tr.transcript ≠ "") := by
  unfold RecordingProcessor.processRecording
  rcases ready with _ | _ <;> rcases conv with _ | _ <;>
    by_cases ht : tr.transcript = "" <;>
    simp [ht]

/-- **C5, witness** for the amended theorem: at a concrete failed
transcription, nothing is written and the result is `success = false`. -/
theorem C5_amended_witness :
    ("" : String) = "" ∧
    (RecordingProcessor.processRecording true true ⟨"", "hi", none⟩ true
      "en" RecordingProcessor.translateAlwaysFails "a.wav").2 = [] ∧
    (RecordingProcessor.processRecording true true ⟨"", "hi", none⟩ true
      "en" RecordingProcessor.translateAlwaysFails "a.wav").1.success =
      false :=
  ⟨rfl,
   (C5_artifact_success_always_true true true ⟨"", "hi", none⟩ true "en"
      RecordingProcessor.translateAlwaysFails "a.wav").2.1 rfl⟩

/-- **C6, confirmed.**  `Process` (`process_recording`) is not invoked on
a file unless `is_file_ready` returned true, and `is_file_ready` (with its
defaults `stability_time=5`, `max_wait=120`) returns true only when either
the sidecar completion marker was observed at some poll within the 120-poll
window, or there was a poll `t` (with at least the stability window's worth
of polls before it, all within the window) at which the five preceding
1-second size observations all equalled the size at `t` — the size was
unchanged for the stability window.  A file that is not ready (including
one that never stabilises within `max_wait`) is abandoned:
`process_audio_file` returns false without invoking `process_recording`. -/
theorem C6_completeness_gate (o : Nat → AudioFetcher.Obs)
    (obs : String → Nat → AudioFetcher.Obs) (pa : Bool)
    (ps : String → Bool) (processed : List String) (f : String) :
    (AudioFetcher.isFileReady o = true →
      (∃ t, t ≤ 120 ∧ (o t).marker = true) ∨
      (∃ t w, t ≤ 120 ∧ 5 ≤ t ∧
        ∀ i, i ≤ 5 → (o (t - i)).size = some w)) ∧
    (AudioFetcher.isFileReady (obs f) = false →
      AudioFetcher.processAudioFile obs pa ps processed f =
        (false, processed, [])) ∧
    ((AudioFetcher.processAudioFile obs pa ps processed f).2.2 ≠ [] →
      AudioFetcher.isFileReady (obs f) = true) := by
  refine ⟨?_, ?_, ?_⟩
  · intro hready
    unfold AudioFetcher.isFileReady at hready
    by_cases hp : (o 0).present = true
    · rw [hp] at hready
      by_cases hm : (o 0).marker = true
      · exact Or.inl ⟨0, by omega, hm⟩
      · simp only [hm, Bool.not_true, Bool.false_eq_true, if_false,
          if_true] at hready
        cases hsize : (o 0).size with
        | none => rw [hsize] at hready; simp at hready
        | some initial =>
          rw [hsize] at hready
          replace hready :
              AudioFetcher.isFileReadyLoop o 5 initial 0 0 120 = true :=
            hready
          rcases isFileReadyLoop_sound o 5 120 initial 0 0 (by omega)
            (by intro i hi; interval_cases i; simpa using hsize)
            hready with ⟨t, h1, h2, h3⟩ | ⟨t, w, h1, h2, h3, h4⟩
          · exact Or.inl ⟨t, by omega, h3⟩
          · exact Or.inr ⟨t, w, by omega, h3, h4⟩
    · rw [Bool.not_eq_true] at hp
      rw [hp] at hready
      simp at hready
  · intro hnotready
    unfold AudioFetcher.processAudioFile
    rw [hnotready]
    rfl
  · intro htrace
    by_cases hready : AudioFetcher.isFileReady (obs f) = true
    · exact hready
    · exfalso
      apply htrace
      rw [Bool.not_eq_true] at hready
      unfold AudioFetcher.processAudioFile
      rw [hready]
      rfl

/-- **C6, witness**: the hypotheses are satisfiable — a file whose marker
is present from the first look is ready (first conjunct applies), a file
whose path never exists is not ready and is not processed (second
conjunct), and a processed file was necessarily ready (third conjunct). -/
theorem C6_completeness_gate_witness :
    ((∃ t, t ≤ 120 ∧
        ((AudioFetcher.obsAlwaysMarked "a.wav") t).marker = true) ∨
      (∃ t w, t ≤ 120 ∧ 5 ≤ t ∧ ∀ i, i ≤ 5 →
        ((AudioFetcher.obsAlwaysMarked "a.wav") (t - i)).size = some w)) ∧
    AudioFetcher.processAudioFile (fun _ _ => ⟨false, false, none⟩) true
      (fun _ => true) [] "a.wav" = (false, [], []) ∧
    AudioFetcher.isFileReady (AudioFetcher.obsAlwaysMarked "a.wav") =
      true :=
  ⟨(C6_completeness_gate (AudioFetcher.obsAlwaysMarked "a.wav")
      AudioFetcher.obsAlwaysMarked true (fun _ => true) [] "a.wav").1
    (by decide),
   (C6_completeness_gate (AudioFetcher.obsAlwaysMarked "a.wav")
      (fun _ _ => ⟨false, false, none⟩) true (fun _ => true) []
      "a.wav").2.1 (by decide),
   (C6_completeness_gate (AudioFetcher.obsAlwaysMarked "a.wav")
      AudioFetcher.obsAlwaysMarked true (fun _ => true) [] "a.wav").2.2
    (by decide)⟩

set_option maxRecDepth 100000 in
/-- **C8, counterexample.**  The claim states the delivery stage
translates the response into a target language defaulting to the
transcript's detected source language.  On a transcript whose detected
language is Telugu (`"te"`), the monitor still calls `translate_text`
with `source_lang="en"`, `target_lang="hi"` — both hardcoded at
transcript_monitor.py:402-406 — and the detected language is never
consulted. -/
theorem C8_ce_target_hardcoded_hindi :
    (TranscriptMonitor.processTranscriptFile
        (TranscriptMonitor.loadMonitor []) "call7_transcript.json"
        (some TranscriptMonitor.teluguTranscript) true
        TranscriptMonitor.adviceOracle true true true ["google_cloud"]
        TranscriptMonitor.svcHindi).delivery =
      some { translateArgs := (TranscriptMonitor.adviceText, "en", "hi"),
             textForAudio := "आपको सिंचाई करनी चाहिए" } ∧
    TranscriptMonitor.teluguTranscript.language = "te" ∧
    ("hi" : String) ≠ "te" := by
  refine ⟨rfl, rfl, by decide⟩

/-- **C8, amended.**  The response-delivery stage always translates the
synthesised pivot-language (English) text into the hardcoded target
language Hindi (`"hi"`) before running TTS: every delivery record's
translate call carries the language pair `("en", "hi")`, whatever the
transcript's detected source language was; there is no detected-language
default and no configured-default fallback. -/
theorem C8_delivery_language_pair_constant
    (st : TranscriptMonitor.MonState) (fn : String)
    (rd : Option TranscriptMonitor.TransData) (orchAvail : Bool)
    (orch : String → String) (tts tc da : Bool) (pref : List String)
    (svcCall : String → List Char → String → String →
      RecordingProcessor.SvcResult)
    (rec : TranscriptMonitor.DeliveryRec)
    (h : (TranscriptMonitor.processTranscriptFile st fn rd orchAvail orch
      tts tc da pref svcCall).delivery = some rec) :
    rec.translateArgs.2.1 = "en" ∧ rec.translateArgs.2.2 = "hi" := by
  rcases ptf_delivery_shape st fn rd orchAvail orch tts tc da pref
    svcCall with hnone | ⟨resp, heq⟩
  · rw [hnone] at h; cases h
  · rw [heq] at h
    rw [gar_shape tts tc da pref svcCall resp rec h]
    exact ⟨rfl, rfl⟩

set_option maxRecDepth 100000 in
/-- **C8, witness** for the amended theorem at the concrete Telugu
scenario. -/
theorem C8_amended_witness :
    (("en", "hi") :
      String × String).1 = "en" ∧ (("en", "hi") : String × String).2 = "hi" :=
  C8_delivery_language_pair_constant (TranscriptMonitor.loadMonitor [])
    "call7_transcript.json" (some TranscriptMonitor.teluguTranscript)
    true TranscriptMonitor.adviceOracle true true true ["google_cloud"]
    TranscriptMonitor.svcHindi
    { translateArgs := (TranscriptMonitor.adviceText, "en", "hi"),
      textForAudio := "आपको सिंचाई करनी चाहिए" } rfl

set_option maxRecDepth 100000 in
/-- **C9, counterexample.**  The claim's consequence ("hence when the
detected source language equals the target language, the delivered
`translated_text` equals the synthesised pivot text byte-for-byte") fails
on the code: on a transcript whose detected language is Hindi — the very
code the delivery stage targets — the delivery still calls
`translate_text` with `("en", "hi")`, the identity guard does not fire
(`"en" ≠ "hi"`), the provider chain runs, and the delivered text is the
provider's output, not the pivot text. -/
theorem C9_ce_delivery_runs_providers_on_equal_language :
    TranscriptMonitor.hindiTranscript.language = "hi" ∧
    (TranscriptMonitor.processTranscriptFile
        (TranscriptMonitor.loadMonitor []) "call8_transcript.json"
        (some TranscriptMonitor.hindiTranscript) true
        TranscriptMonitor.adviceOracle true true true ["google_cloud"]
        TranscriptMonitor.svcHindi).delivery =
      some { translateArgs := (TranscriptMonitor.adviceText, "en", "hi"),
             textForAudio := "आपको सिंचाई करनी चाहिए" } ∧
    ("आपको सिंचाई करनी चाहिए" : String) ≠ TranscriptMonitor.adviceText := by
  refine ⟨rfl, rfl, by decide⟩

/-- **C9, amended.**  `translate_text(text, L, L)` returns the input text
unchanged with `success=true` and service `"no_translation_needed"`,
performing no provider call (the call trace is empty), for every text and
language code — the guard fires before chunking or provider lookup.
However, the delivery stage always calls `translate_text` with the
constant pair `("en", "hi")`, so the identity guard never applies on the
delivery path and the delivered text need not equal the pivot text even
when the detected source language equals the delivery target. -/
theorem C9_translate_text_identity (tc da : Bool) (pref : List String)
    (svcCall : String → List Char → String → String →
      RecordingProcessor.SvcResult)
    (text : List Char) (L : String) :
    RecordingProcessor.translateText tc da pref svcCall text L L =
      ({ translatedText := text, sourceLanguage := L, targetLanguage := L,
         success := true, service := some "no_translation_needed" },
       []) := by
  unfold RecordingProcessor.translateText
  rw [if_pos]
  simp

/-- **C10, confirmed.**  A transcript already in the processed set is
skipped outright (no orchestrator call, state unchanged) — within this
process lifetime or, through the persisted log reloaded at startup, a
later one.  When the monitor's state is consistent (`persisted =
processed`, as at startup) and reading and extraction succeed with
non-empty text, the filename ends up in the processed set and the whole
set is persisted, regardless of the orchestrator's response or whether
audio generation was skipped.  When reading or extraction fails, the
state is unchanged (the file stays eligible for retry). -/
theorem C10_processed_marked_persisted_never_reprocessed
    (st : TranscriptMonitor.MonState) (fn : String)
    (rd : Option TranscriptMonitor.TransData) (orchAvail : Bool)
    (orch : String → String) (tts tc da : Bool) (pref : List String)
    (svcCall : String → List Char → String → String →
      RecordingProcessor.SvcResult)
    (d : TranscriptMonitor.TransData) (t : String)
    (hcons : st.persisted = st.processed) :
    (fn ∈ st.processed →
      TranscriptMonitor.processTranscriptFile st fn rd orchAvail orch tts
        tc da pref svcCall =
        { state := st, orchCalls := [], responsesSaved := [],
          delivery := none }) ∧
    (rd = some d → TranscriptMonitor.extractTranslatedText d = some t →
      t ≠ "" →
      fn ∈ (TranscriptMonitor.processTranscriptFile st fn rd orchAvail
        orch tts tc da pref svcCall).state.processed ∧
      (TranscriptMonitor.processTranscriptFile st fn rd orchAvail orch
        tts tc da pref svcCall).state.persisted =
      (TranscriptMonitor.processTranscriptFile st fn rd orchAvail orch
        tts tc da pref svcCall).state.processed) ∧
    (rd = none →
      (TranscriptMonitor.processTranscriptFile st fn rd orchAvail orch
        tts tc da pref svcCall).state = st) ∧
    (rd = some d → TranscriptMonitor.extractTranslatedText d = none →
      (TranscriptMonitor.processTranscriptFile st fn rd orchAvail orch
        tts tc da pref svcCall).state = st) := by
  by_cases hmem : fn ∈ st.processed
  · have hc : st.processed.contains fn = true := by simpa using hmem
    refine ⟨fun _ => ?_, fun _ _ _ => ⟨?_, ?_⟩, fun _ => ?_, fun _ _ => ?_⟩
    · simp [TranscriptMonitor.processTranscriptFile, hc, hmem]
    · simpa [TranscriptMonitor.processTranscriptFile, hc, hmem] using hmem
    · simpa [TranscriptMonitor.processTranscriptFile, hc, hmem] using hcons
    · simp [TranscriptMonitor.processTranscriptFile, hc, hmem]
    · simp [TranscriptMonitor.processTranscriptFile, hc, hmem]
  · have hc : st.processed.contains fn = false := by simpa using hmem
    refine ⟨fun h => absurd h hmem, ?_, ?_, ?_⟩
    · intro hrd het ht
      subst hrd
      simp only [TranscriptMonitor.processTranscriptFile, hc,
        Bool.false_eq_true, if_false, het]
      rw [if_neg ht]
      exact ⟨setAdd_mem fn st.processed, rfl⟩
    · intro hrd
      subst hrd
      simp [TranscriptMonitor.processTranscriptFile, hc]
    · intro hrd hext
      subst hrd
      simp [TranscriptMonitor.processTranscriptFile, hc, hext]

/-- **C10, witness**: a concrete successful run marks and persists the
transcript filename. -/
theorem C10_witness :
    "a_transcript.json" ∈
      (TranscriptMonitor.processTranscriptFile
        (TranscriptMonitor.loadMonitor []) "a_transcript.json"
        (some TranscriptMonitor.teluguTranscript) true
        TranscriptMonitor.adviceOracle true true true ["google_cloud"]
        TranscriptMonitor.svcHindi).state.processed ∧
    (TranscriptMonitor.processTranscriptFile
        (TranscriptMonitor.loadMonitor []) "a_transcript.json"
        (some TranscriptMonitor.teluguTranscript) true
        TranscriptMonitor.adviceOracle true true true ["google_cloud"]
        TranscriptMonitor.svcHindi).state.persisted =
    (TranscriptMonitor.processTranscriptFile
        (TranscriptMonitor.loadMonitor []) "a_transcript.json"
        (some TranscriptMonitor.teluguTranscript) true
        TranscriptMonitor.adviceOracle true true true ["google_cloud"]
        TranscriptMonitor.svcHindi).state.processed :=
  (C10_processed_marked_persisted_never_reprocessed
    (TranscriptMonitor.loadMonitor []) "a_transcript.json"
    (some TranscriptMonitor.teluguTranscript) true
    TranscriptMonitor.adviceOracle true true true ["google_cloud"]
    TranscriptMonitor.svcHindi TranscriptMonitor.teluguTranscript
    "My crop needs irrigation advice please" rfl).2.1 rfl rfl
    (by decide)

end AgriPipeline
